import Mathlib

/-!
# Verification of the MMU3 filament-transport state machine

Shallow embedding of the MMU3 class of `extras/mmu3.py` (Klipper extra module
managing a Prusa MMU3 multi-material unit).  The embedding models:

* the mutable MMU state (`is_paused`, `is_homed`, `current_tool`,
  `current_filament`, `extruder_temp`),
* the stepper actuator interface (`do_set_position`, `do_move`,
  `do_homing_move`, `do_enable`) as a trace of issued calls,
* the binary sensors (FINDA endstop, extruder filament switch) and the
  extruder thermistor as environment oracles indexed by query count,
* every operation of the class that the claims touch, translated
  statement-by-statement from the Python source.

Numeric configuration values and positions (floats in Python) are modelled as
integers; no claim depends on fractional values.  Console messages, the LCD,
and opaque G-code macro invocations (PAUSE script, ramming profile, TMC
register writes, extruder `G1 E` moves) are external collaborators whose
invocations the core never inspects; they are not part of the modelled state.
The filament runout/motion sensor enable flags saved and restored by
`home_mmu` / `cmd_tx` are likewise external state and are not modelled.
-/

/-- The three manual steppers owned by the MMU3 unit. -/
inductive Stepper where
  | idler
  | pulley
  | selector
deriving DecidableEq, Repr

/-- One actuator call issued to a manual stepper.  `do_set_position`,
`do_move` and `do_homing_move` mirror the ManualStepper methods of the same
name; `do_enable` records enable/disable requests (issued by
`disable_steppers`). -/
inductive StepperCall where
  | do_set_position (s : Stepper) (pos : Int)
  | do_move (s : Stepper) (target speed accel : Int)
  | do_homing_move (s : Stepper) (dist speed accel : Int)
      (triggerOnContact checkTrigger : Bool)
  | do_enable (s : Stepper) (enabled : Bool)
deriving DecidableEq, Repr

/-- The mutable state variables of the MMU3 instance (set up in
`MMU3.__init__`). -/
structure MMUState where
  is_paused : Bool
  is_homed : Bool
  extruder_temp : Option Int
  current_tool : Option Int
  current_filament : Option Int
deriving DecidableEq, Repr

/-- The configuration options read once in `MMU3.__init__`.  Only options
that influence the modelled control flow are present. -/
structure Config where
  number_of_tools : Nat
  bowden_load_length1 : Int
  bowden_load_length2 : Int
  bowden_load_speed1 : Int
  bowden_load_speed2 : Int
  bowden_load_accel1 : Int
  bowden_load_accel2 : Int
  bowden_unload_length : Int
  bowden_unload_speed : Int
  bowden_unload_accel : Int
  finda_load_retry : Nat
  finda_load_length : Int
  finda_unload_retry : Nat
  finda_unload_length : Int
  finda_load_speed : Int
  finda_unload_speed : Int
  finda_load_accel : Int
  finda_unload_accel : Int
  cut_filament_length : Int
  cutting_edge_retract : Int
  selector_speed : Int
  selector_homing_speed : Int
  selector_accel : Int
  selector_positions : List Int
  idler_positions : List Int
  idler_home_position : Int
  idler_load_to_extruder_speed : Int
  min_temp_extruder : Int
  extruder_eject_temp : Int
  enable_no_selector_mode : Bool
  load_retry : Nat
  unload_retry : Nat
  idler_velocity : Int
  idler_accel : Int
  pulley_velocity : Int
  pulley_accel : Int

/-- Environment oracles: the value returned by the k-th query of each
sensor / thermistor.  `finda` is the pulley-stepper endstop
(`is_filament_in_finda`), `extruder` the filament switch sensor
(`is_filament_present_in_extruder`), `temp` the extruder heater temperature
(`extruder_heater.get_temp(...)[0]`). -/
structure Env where
  finda : Nat → Bool
  extruder : Nat → Bool
  temp : Nat → Int

/-- The full execution state: MMU state, how many times each oracle has been
queried so far, and the trace of actuator calls issued so far. -/
structure World where
  mmu : MMUState
  findaIdx : Nat
  extruderIdx : Nat
  tempIdx : Nat
  trace : List StepperCall
deriving DecidableEq, Repr

/-- Record one actuator call. -/
def World.emit (w : World) (c : StepperCall) : World :=
  { w with trace := w.trace ++ [c] }

/-- Query the FINDA endstop (property `is_filament_in_finda`). -/
def query_finda (env : Env) (w : World) : Bool × World :=
  (env.finda w.findaIdx, { w with findaIdx := w.findaIdx + 1 })

/-- Query the extruder filament switch sensor
(property `is_filament_present_in_extruder`). -/
def query_extruder (env : Env) (w : World) : Bool × World :=
  (env.extruder w.extruderIdx, { w with extruderIdx := w.extruderIdx + 1 })

/-- Read the extruder temperature. -/
def read_temp (env : Env) (w : World) : Int × World :=
  (env.temp w.tempIdx, { w with tempIdx := w.tempIdx + 1 })

/-- Python list subscription `lst[i]`: negative indices address from the end,
out-of-range indices raise `IndexError` (modelled as `none`). -/
def pyIndex (l : List Int) (i : Int) : Option Int :=
  let j : Int := if i < 0 then (l.length : Int) + i else i
  if j < 0 then none else l[j.toNat]?

/-- `disable_steppers`: dwell, disable, dwell for each given stepper (the
dwells are pure waits and leave no mark on the modelled state). -/
def disable_steppers (ss : List Stepper) (w : World) : World :=
  ss.foldl (fun w s => w.emit (.do_enable s false)) w

/-- `home_idler`: zero the idler, nudge +7, drive -95, re-zero at 2, move to
the configured idler home position, disable the idler. -/
def home_idler (cfg : Config) (w : World) : World :=
  let w := w.emit (.do_set_position .idler 0)
  let w := w.emit (.do_move .idler 7 cfg.idler_velocity cfg.idler_accel)
  let w := w.emit (.do_move .idler (-95) cfg.idler_velocity cfg.idler_accel)
  let w := w.emit (.do_set_position .idler 2)
  let w := w.emit (.do_move .idler cfg.idler_home_position cfg.idler_velocity cfg.idler_accel)
  disable_steppers [.idler] w

/-- `pause`: snapshot the extruder temperature into `extruder_temp`, set
`is_paused`, and run the external PAUSE macro (park, idle timeout, beeps —
not part of the modelled state). -/
def pause (env : Env) (w : World) : World :=
  let (t, w) := read_temp env w
  { w with mmu := { w.mmu with extruder_temp := some t, is_paused := true } }

/-- `unlock`: clear `is_paused` and re-home the idler only. -/
def unlock (cfg : Config) (w : World) : World :=
  home_idler cfg { w with mmu := { w.mmu with is_paused := false } }

/-- `validate_filament_in_extruder`: pause and fail when the extruder sensor
does not see filament. -/
def validate_filament_in_extruder (env : Env) (w : World) : Bool × World :=
  let (p, w) := query_extruder env w
  if !p then (false, pause env w) else (true, w)

/-- `validate_filament_not_stuck_in_extruder`: pause and fail when the
extruder sensor still sees filament. -/
def validate_filament_not_stuck_in_extruder (env : Env) (w : World) : Bool × World :=
  let (p, w) := query_extruder env w
  if p then (false, pause env w) else (true, w)

/-- `validate_filament_is_in_finda`: pause and fail when FINDA does not see
filament. -/
def validate_filament_is_in_finda (env : Env) (w : World) : Bool × World :=
  let (p, w) := query_finda env w
  if !p then (false, pause env w) else (true, w)

/-- `validate_filament_not_stuck_in_finda`: pause and fail when FINDA still
sees filament. -/
def validate_filament_not_stuck_in_finda (env : Env) (w : World) : Bool × World :=
  let (p, w) := query_finda env w
  if p then (false, pause env w) else (true, w)

/-- `validate_hotend_is_hot_enough`: pause and fail when the hotend is below
`min_temp_extruder`. -/
def validate_hotend_is_hot_enough (cfg : Config) (env : Env) (w : World) : Bool × World :=
  let (t, w) := read_temp env w
  if t < cfg.min_temp_extruder then (false, pause env w) else (true, w)

/-- Body of the `for i in range(finda_load_retry)` loop of
`load_filament_to_finda_in_loop`, by remaining iteration count: zero the
pulley, homing-move towards FINDA, wait, query FINDA; succeed on detection,
pause and fail once the retries are exhausted. -/
def load_finda_loop (cfg : Config) (env : Env) : Nat → World → Bool × World
  | 0, w => (false, pause env w)
  | Nat.succ n, w =>
    let w := w.emit (.do_set_position .pulley 0)
    let w := w.emit (.do_homing_move .pulley cfg.finda_load_length
      cfg.finda_load_speed cfg.finda_load_accel true false)
    let (p, w) := query_finda env w
    if p then (true, w) else load_finda_loop cfg env n w

/-- `load_filament_to_finda_in_loop` (a registered command with no pause
guard). -/
def load_filament_to_finda_in_loop (cfg : Config) (env : Env) (w : World) : Bool × World :=
  load_finda_loop cfg env cfg.finda_load_retry w

/-- Body of the `for i in range(finda_unload_retry)` loop of
`unload_filament_to_finda_in_loop`: reverse homing-move, query FINDA; succeed
once FINDA no longer sees filament, pause and fail on exhaustion. -/
def unload_finda_loop (cfg : Config) (env : Env) : Nat → World → Bool × World
  | 0, w => (false, pause env w)
  | Nat.succ n, w =>
    let w := w.emit (.do_set_position .pulley 0)
    let w := w.emit (.do_homing_move .pulley (-cfg.finda_unload_length)
      cfg.finda_unload_speed cfg.finda_unload_accel false false)
    let (p, w) := query_finda env w
    if !p then (true, w) else unload_finda_loop cfg env n w

/-- `unload_filament_to_finda_in_loop`. -/
def unload_filament_to_finda_in_loop (cfg : Config) (env : Env) (w : World) : Bool × World :=
  unload_finda_loop cfg env cfg.finda_unload_retry w

/-- `select_tool`: refuse when paused, when not homed, or when `tool_id` is
`None` or negative; move the idler to `idler_positions[tool_id]` (an
out-of-range id raises `IndexError`, modelled as `none`); unless in
no-selector mode also move the selector and disable it; set `current_tool`. -/
def select_tool (cfg : Config) (tool_id : Option Int) (w : World) : Option (Bool × World) :=
  if w.mmu.is_paused then some (false, w)
  else if !w.mmu.is_homed then some (false, w)
  else
    match tool_id with
    | none => some (false, w)
    | some tid =>
      if tid < 0 then some (false, w)
      else
        match pyIndex cfg.idler_positions tid with
        | none => none
        | some ipos =>
          let w := w.emit (.do_move .idler ipos cfg.idler_velocity cfg.idler_accel)
          if !cfg.enable_no_selector_mode then
            match pyIndex cfg.selector_positions tid with
            | none => none
            | some spos =>
              let w := w.emit (.do_move .selector spos cfg.selector_speed cfg.selector_accel)
              let w := disable_steppers [.selector] w
              some (true, { w with mmu := { w.mmu with current_tool := some tid } })
          else
            some (true, { w with mmu := { w.mmu with current_tool := some tid } })

/-- `unselect_tool`: refuse when paused or not homed; park the idler at the
home position, clear `current_tool`, disable the idler. -/
def unselect_tool (cfg : Config) (w : World) : Bool × World :=
  if w.mmu.is_paused then (false, w)
  else if !w.mmu.is_homed then (false, w)
  else
    let w := w.emit (.do_move .idler cfg.idler_home_position cfg.idler_velocity cfg.idler_accel)
    let w := { w with mmu := { w.mmu with current_tool := none } }
    let w := disable_steppers [.idler] w
    (true, w)

/-- `retry_load_filament_in_extruder`: success at once if the extruder sensor
already sees filament; refuse when paused; refuse — without pausing — when
the hotend is cold; otherwise re-select the tool of `current_filament`, push
10 mm with the pulley, run the extruder purge script, unselect the tool. -/
def retry_load_filament_in_extruder (cfg : Config) (env : Env) (w : World) :
    Option (Bool × World) :=
  let (p, w) := query_extruder env w
  if p then some (true, w)
  else if w.mmu.is_paused then some (false, w)
  else
    let (t, w) := read_temp env w
    if t < cfg.min_temp_extruder then some (false, w)
    else
      match select_tool cfg w.mmu.current_filament w with
      | none => none
      | some (_, w) =>
        let w := w.emit (.do_set_position .pulley 0)
        let w := w.emit (.do_move .pulley 10 cfg.pulley_velocity cfg.pulley_accel)
        let w := w.emit (.do_set_position .pulley 0)
        let w := disable_steppers [.pulley] w
        let (_, w) := unselect_tool cfg w
        some (true, w)

/-- The `for _ in range(load_retry)` loop of `load_filament_in_extruder`
(results of the retries are ignored). -/
def retry_load_loop (cfg : Config) (env : Env) : Nat → World → Option World
  | 0, w => some w
  | Nat.succ n, w =>
    match retry_load_filament_in_extruder cfg env w with
    | none => none
    | some (_, w) => retry_load_loop cfg env n w

/-- `load_filament_in_extruder`: refuse when paused; thermal guard (which
pauses on failure); push 20 mm with the pulley coordinated with the extruder
gear scripts; unselect the tool; if the extruder sensor does not confirm,
retry `load_retry` times; finally validate (which pauses on mismatch). -/
def load_filament_in_extruder (cfg : Config) (env : Env) (w : World) :
    Option (Bool × World) :=
  if w.mmu.is_paused then some (false, w)
  else
    match validate_hotend_is_hot_enough cfg env w with
    | (false, w) => some (false, w)
    | (true, w) =>
      let w := w.emit (.do_set_position .pulley 0)
      let w := w.emit (.do_move .pulley 20 cfg.idler_load_to_extruder_speed cfg.pulley_accel)
      let w := w.emit (.do_set_position .pulley 0)
      let w := disable_steppers [.pulley] w
      let (_, w) := unselect_tool cfg w
      let (p, w) := query_extruder env w
      match (if p then some w else retry_load_loop cfg env cfg.load_retry w) with
      | none => none
      | some w =>
        match validate_filament_in_extruder env w with
        | (false, w) => some (false, w)
        | (true, w) => some (true, w)

/-- `retry_unload_filament_in_extruder`: success at once if the extruder
sensor no longer sees filament; refuse when paused; refuse — without
pausing — when the hotend is cold; otherwise run the corrective retract
script. -/
def retry_unload_filament_in_extruder (cfg : Config) (env : Env) (w : World) : Bool × World :=
  let (p, w) := query_extruder env w
  if !p then (true, w)
  else if w.mmu.is_paused then (false, w)
  else
    let (t, w) := read_temp env w
    if t < cfg.min_temp_extruder then (false, w)
    else (true, w)

/-- The `for _ in range(unload_retry)` loop of `unload_filament_in_extruder`
(results of the retries are ignored). -/
def retry_unload_loop (cfg : Config) (env : Env) : Nat → World → World
  | 0, w => w
  | Nat.succ n, w =>
    retry_unload_loop cfg env n (retry_unload_filament_in_extruder cfg env w).2

/-- `unload_filament_in_extruder`: refuse when paused; thermal guard (which
pauses); success at once when no filament is present; auto-unselect a
selected tool; run the retract script; bounded retry if the sensor still
sees filament; validate not-stuck (which pauses on mismatch). -/
def unload_filament_in_extruder (cfg : Config) (env : Env) (w : World) : Bool × World :=
  if w.mmu.is_paused then (false, w)
  else
    match validate_hotend_is_hot_enough cfg env w with
    | (false, w) => (false, w)
    | (true, w) =>
      let (p, w) := query_extruder env w
      if !p then (true, w)
      else
        let w := if w.mmu.current_tool != none then (unselect_tool cfg w).2 else w
        let (p2, w) := query_extruder env w
        let w := if p2 then retry_unload_loop cfg env cfg.unload_retry w else w
        match validate_filament_not_stuck_in_extruder env w with
        | (false, w) => (false, w)
        | (true, w) => (true, w)

/-- `unload_filament_in_extruder_with_ramming`: refuse when paused; thermal
guard (which pauses); auto-unselect a selected tool; run the ramming profile
script; then the plain extruder unload. -/
def unload_filament_in_extruder_with_ramming (cfg : Config) (env : Env) (w : World) :
    Bool × World :=
  if w.mmu.is_paused then (false, w)
  else
    match validate_hotend_is_hot_enough cfg env w with
    | (false, w) => (false, w)
    | (true, w) =>
      let w := if w.mmu.current_tool != none then (unselect_tool cfg w).2 else w
      match unload_filament_in_extruder cfg env w with
      | (false, w) => (false, w)
      | (true, w) => (true, w)

/-- `eject_from_extruder`: refuse when paused; no-op success when no filament
is present; read the current temperature to compute the preheat target for
the `M109` script (the value only feeds that script); then unload with
ramming. -/
def eject_from_extruder (cfg : Config) (env : Env) (w : World) : Bool × World :=
  if w.mmu.is_paused then (false, w)
  else
    let (p, w) := query_extruder env w
    if !p then (true, w)
    else
      let w := (read_temp env w).2
      match unload_filament_in_extruder_with_ramming cfg env w with
      | (false, w) => (false, w)
      | (true, w) => (true, w)

/-- `load_filament_to_finda`: refuse when paused or when no tool is selected;
run the bounded FINDA load loop; zero and disable the pulley; validate
presence in FINDA (which pauses on mismatch); record
`current_filament = current_tool`. -/
def load_filament_to_finda (cfg : Config) (env : Env) (w : World) : Bool × World :=
  if w.mmu.is_paused then (false, w)
  else if w.mmu.current_tool = none then (false, w)
  else
    match load_filament_to_finda_in_loop cfg env w with
    | (false, w) => (false, w)
    | (true, w) =>
      let w := w.emit (.do_set_position .pulley 0)
      let w := disable_steppers [.pulley] w
      match validate_filament_is_in_finda env w with
      | (false, w) => (false, w)
      | (true, w) =>
        (true, { w with mmu := { w.mmu with current_filament := w.mmu.current_tool } })

/-- `load_filament_from_finda_to_extruder`: refuse when paused or when no
tool is selected; two-phase pulley transport through the bowden tube. -/
def load_filament_from_finda_to_extruder (cfg : Config) (w : World) : Bool × World :=
  if w.mmu.is_paused then (false, w)
  else if w.mmu.current_tool = none then (false, w)
  else
    let w := w.emit (.do_set_position .pulley 0)
    let w := w.emit (.do_move .pulley cfg.bowden_load_length1 cfg.bowden_load_speed1 cfg.bowden_load_accel1)
    let w := w.emit (.do_set_position .pulley 0)
    let w := w.emit (.do_move .pulley cfg.bowden_load_length2 cfg.bowden_load_speed2 cfg.bowden_load_accel2)
    let w := disable_steppers [.pulley] w
    (true, w)

/-- `load_filament_to_extruder`: refuse when paused or when no tool is
selected; unless in no-selector mode first load to FINDA; then transport
from FINDA to the extruder gear. -/
def load_filament_to_extruder (cfg : Config) (env : Env) (w : World) : Bool × World :=
  if w.mmu.is_paused then (false, w)
  else if w.mmu.current_tool = none then (false, w)
  else
    match (if cfg.enable_no_selector_mode = false
           then load_filament_to_finda cfg env w else (true, w)) with
    | (false, w) => (false, w)
    | (true, w) =>
      match load_filament_from_finda_to_extruder cfg w with
      | (true, w) => (true, w)
      | (false, w) => (false, w)

/-- The tool-resolution prologue shared verbatim by
`unload_filament_from_finda`, `unload_filament_from_extruder_to_finda` and
`unload_filament_from_extruder`: when no tool is selected, auto-select the
tool of `current_filament` (result ignored) or fail when that is also
`None`. -/
def resolve_tool (cfg : Config) (w : World) : Option (Bool × World) :=
  if w.mmu.current_tool = none then
    if w.mmu.current_filament != none then
      match select_tool cfg w.mmu.current_filament w with
      | none => none
      | some (_, w) => some (true, w)
    else some (false, w)
  else some (true, w)

/-- `unload_filament_from_finda`: refuse when paused; resolve the tool;
reverse move out of the FINDA zone; validate not-stuck (which pauses on
mismatch); clear `current_filament`. -/
def unload_filament_from_finda (cfg : Config) (env : Env) (w : World) :
    Option (Bool × World) :=
  if w.mmu.is_paused then some (false, w)
  else
    match resolve_tool cfg w with
    | none => none
    | some (false, w) => some (false, w)
    | some (true, w) =>
      let w := w.emit (.do_set_position .pulley 0)
      let w := w.emit (.do_move .pulley (-cfg.finda_unload_length)
        cfg.finda_unload_speed cfg.finda_unload_accel)
      let w := w.emit (.do_set_position .pulley 0)
      let w := disable_steppers [.pulley] w
      match validate_filament_not_stuck_in_finda env w with
      | (false, w) => some (false, w)
      | (true, w) =>
        some (true, { w with mmu := { w.mmu with current_filament := none } })

/-- `unload_filament_from_extruder_to_finda`: refuse when paused; resolve the
tool; with the selector, a single reverse homing move, a secondary bounded
unload loop if FINDA still reports presence, then validate not-stuck; in
no-selector mode a plain reverse move. -/
def unload_filament_from_extruder_to_finda (cfg : Config) (env : Env) (w : World) :
    Option (Bool × World) :=
  if w.mmu.is_paused then some (false, w)
  else
    match resolve_tool cfg w with
    | none => none
    | some (false, w) => some (false, w)
    | some (true, w) =>
      let w := w.emit (.do_set_position .pulley 0)
      if !cfg.enable_no_selector_mode then
        let w := w.emit (.do_homing_move .pulley (-cfg.bowden_unload_length)
          cfg.bowden_unload_speed cfg.bowden_unload_accel false false)
        let (p, w) := query_finda env w
        match (if p then unload_filament_to_finda_in_loop cfg env w else (true, w)) with
        | (false, w) => some (false, w)
        | (true, w) =>
          match validate_filament_not_stuck_in_finda env w with
          | (false, w) => some (false, w)
          | (true, w) => some (true, disable_steppers [.pulley] w)
      else
        let w := w.emit (.do_move .pulley (-cfg.bowden_unload_length)
          cfg.bowden_unload_speed cfg.bowden_unload_accel)
        some (true, disable_steppers [.pulley] w)

/-- `unload_filament_from_extruder`: refuse when paused; resolve the tool;
retract to FINDA; in no-selector mode bowden clearance is sufficient,
otherwise finish with `unload_filament_from_finda`. -/
def unload_filament_from_extruder (cfg : Config) (env : Env) (w : World) :
    Option (Bool × World) :=
  if w.mmu.is_paused then some (false, w)
  else
    match resolve_tool cfg w with
    | none => none
    | some (false, w) => some (false, w)
    | some (true, w) =>
      match unload_filament_from_extruder_to_finda cfg env w with
      | none => none
      | some (false, w) => some (false, w)
      | some (true, w) =>
        if cfg.enable_no_selector_mode then some (true, w)
        else
          match unload_filament_from_finda cfg env w with
          | none => none
          | some (false, w) => some (false, w)
          | some (true, w) => some (true, w)

/-- `eject_ramming`: refuse when paused or when no filament is recorded;
unload from the extruder with ramming; re-select the tool of
`current_filament` (result ignored); unload from the extruder to the MMU. -/
def eject_ramming (cfg : Config) (env : Env) (w : World) : Option (Bool × World) :=
  if w.mmu.is_paused then some (false, w)
  else if w.mmu.current_filament = none then some (false, w)
  else
    match unload_filament_in_extruder_with_ramming cfg env w with
    | (false, w) => some (false, w)
    | (true, w) =>
      match select_tool cfg w.mmu.current_filament w with
      | none => none
      | some (_, w) => unload_filament_from_extruder cfg env w

/-- `eject_before_home`: if the extruder sensor sees filament, eject it and
verify absence; unless in no-selector mode, if FINDA sees filament, unload
to the MMU and verify FINDA absence. -/
def eject_before_home (cfg : Config) (env : Env) (w : World) : Option (Bool × World) :=
  let (p, w) := query_extruder env w
  match (if p then
           match eject_from_extruder cfg env w with
           | (false, w) => (false, w)
           | (true, w) => validate_filament_not_stuck_in_extruder env w
         else (true, w)) with
  | (false, w) => some (false, w)
  | (true, w) =>
    if !cfg.enable_no_selector_mode then
      let (pf, w) := query_finda env w
      if pf then
        match unload_filament_from_extruder cfg env w with
        | none => none
        | some (false, w) => some (false, w)
        | some (true, w) =>
          match validate_filament_not_stuck_in_finda env w with
          | (false, w) => some (false, w)
          | (true, w) => some (true, w)
      else some (true, w)
    else some (true, w)

/-- `home_mmu_only`: refuse when paused; home the idler; unless in
no-selector mode home the selector against its endstop; clear
`current_tool` and `current_filament`; verify the gear by selecting tool 0
and unselecting it (results ignored); set `is_homed`; disable all
steppers. -/
def home_mmu_only (cfg : Config) (w : World) : Option (Bool × World) :=
  if w.mmu.is_paused then some (false, w)
  else
    let w := home_idler cfg w
    let w := if !cfg.enable_no_selector_mode then
        let w := w.emit (.do_set_position .selector 0)
        let w := w.emit (.do_homing_move .selector (-76) cfg.selector_homing_speed
          cfg.selector_accel true true)
        let w := w.emit (.do_set_position .selector 0)
        disable_steppers [.selector] w
      else w
    let w := { w with mmu := { w.mmu with current_tool := none, current_filament := none } }
    let w := disable_steppers [.idler] w
    match select_tool cfg (some 0) w with
    | none => none
    | some (_, w) =>
      let (_, w) := unselect_tool cfg w
      let w := { w with mmu := { w.mmu with is_homed := true } }
      let w := disable_steppers [.pulley, .selector, .idler] w
      some (true, w)

/-- `home_mmu`: set `is_homed = True` up front (so the eject stage may select
tools), eject any loaded filament, then run `home_mmu_only`.  The
runout-sensor suppression around the body touches only external collaborator
state. -/
def home_mmu (cfg : Config) (env : Env) (w : World) : Option (Bool × World) :=
  let w := { w with mmu := { w.mmu with is_homed := true } }
  match eject_before_home cfg env w with
  | none => none
  | some (false, w) => some (false, w)
  | some (true, w) => home_mmu_only cfg w

/-- `unload_tool`: refuse when paused; when no filament is recorded but FINDA
sees one, heuristically re-derive `current_filament` from `current_tool`
(fail when that is also `None`); when no filament is recorded and FINDA is
clear, succeed with nothing to do; otherwise unload from the extruder,
re-select the filament tool, and unload to the MMU. -/
def unload_tool (cfg : Config) (env : Env) (w : World) : Option (Bool × World) :=
  if w.mmu.is_paused then some (false, w)
  else if w.mmu.current_filament = none then
    let (p, w) := query_finda env w
    if p then
      if w.mmu.current_tool = none then some (false, w)
      else some (true, { w with mmu := { w.mmu with current_filament := w.mmu.current_tool } })
    else some (true, w)
  else
    match unload_filament_in_extruder cfg env w with
    | (false, w) => some (false, w)
    | (true, w) =>
      match select_tool cfg w.mmu.current_filament w with
      | none => none
      | some (false, w) => some (false, w)
      | some (true, w) => unload_filament_from_extruder cfg env w

/-- `cut_filament`: refuse when paused or in no-selector (5-in-1) mode;
unload the current tool; select `tool_id`; feed to FINDA and retract from
FINDA; position the idler at `tool_id` and the selector near zero; push
`cut_filament_length + cutting_edge_retract`; lower the stall threshold and
raise the selector current (TMC scripts); drive the selector to
`selector_positions[tool_id]` to perform the cut; restore the driver
settings; retract the pulley; re-home the whole MMU (result ignored). -/
def cut_filament (cfg : Config) (env : Env) (tool_id : Int) (w : World) :
    Option (Bool × World) :=
  if w.mmu.is_paused then some (false, w)
  else if cfg.enable_no_selector_mode then some (false, w)
  else
    match unload_tool cfg env w with
    | none => none
    | some (false, w) => some (false, w)
    | some (true, w) =>
      match select_tool cfg (some tool_id) w with
      | none => none
      | some (false, w) => some (false, w)
      | some (true, w) =>
        match load_filament_to_finda cfg env w with
        | (false, w) => some (false, w)
        | (true, w) =>
          match unload_filament_from_finda cfg env w with
          | none => none
          | some (false, w) => some (false, w)
          | some (true, w) =>
            match pyIndex cfg.idler_positions tool_id with
            | none => none
            | some ipos =>
              let w := w.emit (.do_move .idler ipos cfg.idler_velocity cfg.idler_accel)
              let w := w.emit (.do_move .selector 5 cfg.selector_speed cfg.selector_accel)
              let w := w.emit (.do_set_position .pulley 0)
              let w := w.emit (.do_move .pulley (cfg.cut_filament_length + cfg.cutting_edge_retract)
                cfg.pulley_velocity cfg.pulley_accel)
              match pyIndex cfg.selector_positions tool_id with
              | none => none
              | some spos =>
                let w := w.emit (.do_move .selector spos cfg.selector_homing_speed 0)
                let w := w.emit (.do_set_position .pulley 0)
                let w := w.emit (.do_move .pulley (-cfg.cutting_edge_retract)
                  cfg.pulley_velocity cfg.pulley_accel)
                match home_mmu cfg env w with
                | none => none
                | some (_, w) => some (true, w)

/-- `load_tool`: refuse when paused; select the tool; load to the extruder
gear; load into the extruder. -/
def load_tool (cfg : Config) (env : Env) (tool_id : Option Int) (w : World) :
    Option (Bool × World) :=
  if w.mmu.is_paused then some (false, w)
  else
    match select_tool cfg tool_id w with
    | none => none
    | some (false, w) => some (false, w)
    | some (true, w) =>
      match load_filament_to_extruder cfg env w with
      | (false, w) => some (false, w)
      | (true, w) => load_filament_in_extruder cfg env w

/-- `cmd_tx` (the `T<n>` tool-change command): return immediately when
`current_filament` already equals `tool_id`; otherwise unload the current
tool and load the requested one, aborting on the first failure.  The
runout/motion sensor suppression around the body touches only external
collaborator state. -/
def cmd_tx (cfg : Config) (env : Env) (tool_id : Int) (w : World) : Option (Unit × World) :=
  if w.mmu.current_filament = some tool_id then some ((), w)
  else
    match unload_tool cfg env w with
    | none => none
    | some (false, w) => some ((), w)
    | some (true, w) =>
      match load_tool cfg env (some tool_id) w with
      | none => none
      | some (_, w) => some ((), w)

/-- `cmd_m702`: unload the tool (result ignored); with the selector, unselect
the tool when FINDA is clear; in no-selector mode always unselect and clear
`current_filament`. -/
def cmd_m702 (cfg : Config) (env : Env) (w : World) : Option (Unit × World) :=
  match unload_tool cfg env w with
  | none => none
  | some (_, w) =>
    if !cfg.enable_no_selector_mode then
      let (p, w) := query_finda env w
      if !p then
        let (_, w) := unselect_tool cfg w
        some ((), w)
      else some ((), w)
    else
      let (_, w) := unselect_tool cfg w
      some ((), { w with mmu := { w.mmu with current_filament := none } })

/-- Result predicate transformer: a property of the result and final world of
an operation that may raise (`none` = Python exception, vacuously
satisfied). -/
def SatR {α : Type} (o : Option (α × World)) (P : α → World → Prop) : Prop :=
  match o with
  | none => True
  | some (r, w) => P r w

/-- The pair of tool-tracking fields `(current_tool, current_filament)`. -/
def toolFil (w : World) : Option Int × Option Int :=
  (w.mmu.current_tool, w.mmu.current_filament)

/-- Is this call a pulley homing move (the motion primitive of the FINDA
load loop)? -/
def isPulleyHomingMove : StepperCall → Bool
  | .do_homing_move .pulley _ _ _ _ _ => true
  | _ => false

/-- Number of pulley homing moves in a trace. -/
def pulleyHomingMoves (t : List StepperCall) : Nat :=
  t.countP isPulleyHomingMove

/-- A sample configuration for concrete witnesses (integral stand-ins for the
config defaults of the module; `finda_load_retry = 3` matches Scenario A of
the specification). -/
def sampleCfg : Config := {
  number_of_tools := 5,
  bowden_load_length1 := 450,
  bowden_load_length2 := 20,
  bowden_load_speed1 := 120,
  bowden_load_speed2 := 60,
  bowden_load_accel1 := 80,
  bowden_load_accel2 := 80,
  bowden_unload_length := 830,
  bowden_unload_speed := 120,
  bowden_unload_accel := 120,
  finda_load_retry := 3,
  finda_load_length := 120,
  finda_unload_retry := 2,
  finda_unload_length := 30,
  finda_load_speed := 20,
  finda_unload_speed := 20,
  finda_load_accel := 50,
  finda_unload_accel := 50,
  cut_filament_length := 20,
  cutting_edge_retract := 5,
  selector_speed := 35,
  selector_homing_speed := 20,
  selector_accel := 200,
  selector_positions := [73, 59, 45, 31, 17],
  idler_positions := [5, 20, 35, 50, 65],
  idler_home_position := 85,
  idler_load_to_extruder_speed := 30,
  min_temp_extruder := 180,
  extruder_eject_temp := 200,
  enable_no_selector_mode := false,
  load_retry := 5,
  unload_retry := 5,
  idler_velocity := 200,
  idler_accel := 500,
  pulley_velocity := 100,
  pulley_accel := 300 }

/-- The sample configuration in no-selector (5-in-1) mode. -/
def nsCfg : Config := { sampleCfg with enable_no_selector_mode := true }

/-- The sample configuration with a single FINDA load retry. -/
def oneRetryCfg : Config := { sampleCfg with finda_load_retry := 1 }

/-- A fresh world over the given MMU state: no queries made, no calls
issued. -/
def mkWorld (m : MMUState) : World :=
  { mmu := m, findaIdx := 0, extruderIdx := 0, tempIdx := 0, trace := [] }

/-- Homed, unpaused, nothing selected or loaded. -/
def readyW : World := mkWorld
  { is_paused := false, is_homed := true, extruder_temp := none,
    current_tool := none, current_filament := none }

/-- Paused, with a tool selected and a filament recorded. -/
def pausedW : World := mkWorld
  { is_paused := true, is_homed := true, extruder_temp := none,
    current_tool := some 1, current_filament := some 2 }

/-- Unpaused and not yet homed. -/
def unhomedW : World := mkWorld
  { is_paused := false, is_homed := false, extruder_temp := none,
    current_tool := none, current_filament := none }

/-- Homed and unpaused with tool 0 selected and its filament loaded. -/
def loadedW : World := mkWorld
  { is_paused := false, is_homed := true, extruder_temp := none,
    current_tool := some 0, current_filament := some 0 }

/-- Sensors all clear, hotend hot. -/
def idleEnv : Env :=
  { finda := fun _ => false, extruder := fun _ => false, temp := fun _ => 210 }

/-- Sensors all clear, hotend cold. -/
def coldEnv : Env :=
  { finda := fun _ => false, extruder := fun _ => false, temp := fun _ => 0 }

/-- Extruder sensor always reporting filament, hotend cold. -/
def stuckColdEnv : Env :=
  { finda := fun _ => false, extruder := fun _ => true, temp := fun _ => 0 }

/-- Sensor script for the `cut_filament` run of `claim7_counterexample`:
FINDA answers are consumed by the `unload_tool` check (clear), the load loop
(present), the load validation (present) and the unload validation (clear);
the extruder sensor reports filament during the final re-homing, and the
cold hotend makes its eject stage pause and fail. -/
def cutEnv : Env :=
  { finda := fun k => decide (k = 1 ∨ k = 2), extruder := fun _ => true,
    temp := fun _ => 0 }

/-- Cold hotend; the extruder sensor answers false on query 0 and true on
query 1 (used to exercise both thermal-guard retry helpers in one run). -/
def coldMixEnv : Env :=
  { finda := fun _ => false, extruder := fun k => decide (k = 1),
    temp := fun _ => 0 }


/-- FINDA always reporting filament, hotend hot. -/
def findaEnv : Env :=
  { finda := fun _ => true, extruder := fun _ => false, temp := fun _ => 210 }

/-- FINDA clear on the very first query and blocked afterwards; used to make
the FINDA-unload stage of a cut fail while every earlier stage succeeds. -/
def cutFailEnv : Env :=
  { finda := fun k => decide (1 ≤ k), extruder := fun _ => false, temp := fun _ => 210 }

/-- The sample configuration with no FINDA load retries at all. -/
def zeroCfg : Config := { sampleCfg with finda_load_retry := 0 }

/-- Fallback pair for reading a result world out of an optional result. -/
def dflt : Bool × World := (false, readyW)

/-- World after the failing home_mmu run of the claim-3 counterexample. -/
def w3h : World := ((home_mmu sampleCfg stuckColdEnv unhomedW).getD dflt).2

/-- World after a clean, successful home_mmu_only run from the ready world. -/
def w3o : World := ((home_mmu_only sampleCfg readyW).getD dflt).2

/-- World after a clean, successful home_mmu run from the ready world. -/
def w7h : World := ((home_mmu sampleCfg idleEnv readyW).getD dflt).2

/-- World after the cut run of the claim-7 counterexample. -/
def w7x : World := ((cut_filament sampleCfg cutEnv 0 readyW).getD dflt).2

/-- World after the trivial unload_tool success of a cut from the ready
world (nothing loaded, FINDA clear). -/
def w7u : World := ((unload_tool zeroCfg idleEnv readyW).getD dflt).2

/-- World after additionally selecting tool 0. -/
def w7s : World := ((select_tool zeroCfg (some 0) w7u).getD dflt).2

/-- World after the failing zero-retry FINDA load that follows. -/
def w7l : World := (load_filament_to_finda zeroCfg idleEnv w7s).2

/-- Worlds of the cut run that fails at the FINDA-unload stage. -/
def w7fu : World := ((unload_tool sampleCfg cutFailEnv readyW).getD dflt).2

/-- World after selecting tool 0 in that run. -/
def w7fs : World := ((select_tool sampleCfg (some 0) w7fu).getD dflt).2

/-- World after its successful FINDA load. -/
def w7fl : World := (load_filament_to_finda sampleCfg cutFailEnv w7fs).2

/-- World after its failing FINDA unload. -/
def w7ff : World := ((unload_filament_from_finda sampleCfg cutFailEnv w7fl).getD dflt).2

/-- World after a no-selector-mode unload pipeline success. -/
def w6n : World := ((unload_filament_from_extruder nsCfg idleEnv loadedW).getD dflt).2

/-- World after a selector-mode unload pipeline success. -/
def w6s : World := ((unload_filament_from_extruder sampleCfg idleEnv loadedW).getD dflt).2

@[simp] theorem emit_mmu (w : World) (c : StepperCall) : (w.emit c).mmu = w.mmu := rfl

@[simp] theorem emit_findaIdx (w : World) (c : StepperCall) : (w.emit c).findaIdx = w.findaIdx := rfl

@[simp] theorem emit_extruderIdx (w : World) (c : StepperCall) : (w.emit c).extruderIdx = w.extruderIdx := rfl

@[simp] theorem emit_tempIdx (w : World) (c : StepperCall) : (w.emit c).tempIdx = w.tempIdx := rfl

@[simp] theorem emit_trace (w : World) (c : StepperCall) : (w.emit c).trace = w.trace ++ [c] := rfl

@[simp] theorem disable_steppers_mmu (ss : List Stepper) (w : World) :
    (disable_steppers ss w).mmu = w.mmu := by
  induction ss generalizing w with
  | nil => rfl
  | cons s ss ih => simpa [disable_steppers] using ih (w.emit (.do_enable s false))

@[simp] theorem disable_steppers_findaIdx (ss : List Stepper) (w : World) :
    (disable_steppers ss w).findaIdx = w.findaIdx := by
  induction ss generalizing w with
  | nil => rfl
  | cons s ss ih => simpa [disable_steppers] using ih (w.emit (.do_enable s false))

@[simp] theorem disable_steppers_extruderIdx (ss : List Stepper) (w : World) :
    (disable_steppers ss w).extruderIdx = w.extruderIdx := by
  induction ss generalizing w with
  | nil => rfl
  | cons s ss ih => simpa [disable_steppers] using ih (w.emit (.do_enable s false))

@[simp] theorem disable_steppers_tempIdx (ss : List Stepper) (w : World) :
    (disable_steppers ss w).tempIdx = w.tempIdx := by
  induction ss generalizing w with
  | nil => rfl
  | cons s ss ih => simpa [disable_steppers] using ih (w.emit (.do_enable s false))

@[simp] theorem home_idler_mmu (cfg : Config) (w : World) : (home_idler cfg w).mmu = w.mmu := by
  simp [home_idler]

@[simp] theorem home_idler_findaIdx (cfg : Config) (w : World) :
    (home_idler cfg w).findaIdx = w.findaIdx := by
  simp [home_idler]

@[simp] theorem home_idler_extruderIdx (cfg : Config) (w : World) :
    (home_idler cfg w).extruderIdx = w.extruderIdx := by
  simp [home_idler]

@[simp] theorem home_idler_tempIdx (cfg : Config) (w : World) :
    (home_idler cfg w).tempIdx = w.tempIdx := by
  simp [home_idler]

@[simp] theorem pause_homed (env : Env) (w : World) :
    (pause env w).mmu.is_homed = w.mmu.is_homed := rfl

@[simp] theorem pause_tool (env : Env) (w : World) :
    (pause env w).mmu.current_tool = w.mmu.current_tool := rfl

@[simp] theorem pause_fil (env : Env) (w : World) :
    (pause env w).mmu.current_filament = w.mmu.current_filament := rfl

@[simp] theorem pause_paused (env : Env) (w : World) :
    (pause env w).mmu.is_paused = true := rfl

@[simp] theorem pause_trace (env : Env) (w : World) :
    (pause env w).trace = w.trace := rfl

@[simp] theorem pause_tempIdx (env : Env) (w : World) :
    (pause env w).tempIdx = w.tempIdx + 1 := rfl

theorem select_tool_paused {w : World} (cfg : Config) (t : Option Int)
    (hp : w.mmu.is_paused = true) : select_tool cfg t w = some (false, w) := by
  simp [select_tool, hp]

theorem unselect_tool_paused {w : World} (cfg : Config)
    (hp : w.mmu.is_paused = true) : unselect_tool cfg w = (false, w) := by
  simp [unselect_tool, hp]

theorem load_filament_to_finda_paused {w : World} (cfg : Config) (env : Env)
    (hp : w.mmu.is_paused = true) : load_filament_to_finda cfg env w = (false, w) := by
  simp [load_filament_to_finda, hp]

theorem load_filament_from_finda_to_extruder_paused {w : World} (cfg : Config)
    (hp : w.mmu.is_paused = true) : load_filament_from_finda_to_extruder cfg w = (false, w) := by
  simp [load_filament_from_finda_to_extruder, hp]

theorem load_filament_to_extruder_paused {w : World} (cfg : Config) (env : Env)
    (hp : w.mmu.is_paused = true) : load_filament_to_extruder cfg env w = (false, w) := by
  simp [load_filament_to_extruder, hp]

theorem load_filament_in_extruder_paused {w : World} (cfg : Config) (env : Env)
    (hp : w.mmu.is_paused = true) : load_filament_in_extruder cfg env w = some (false, w) := by
  simp [load_filament_in_extruder, hp]

theorem unload_filament_in_extruder_paused {w : World} (cfg : Config) (env : Env)
    (hp : w.mmu.is_paused = true) : unload_filament_in_extruder cfg env w = (false, w) := by
  simp [unload_filament_in_extruder, hp]

theorem unload_filament_in_extruder_with_ramming_paused {w : World} (cfg : Config) (env : Env)
    (hp : w.mmu.is_paused = true) :
    unload_filament_in_extruder_with_ramming cfg env w = (false, w) := by
  simp [unload_filament_in_extruder_with_ramming, hp]

theorem unload_filament_from_finda_paused {w : World} (cfg : Config) (env : Env)
    (hp : w.mmu.is_paused = true) : unload_filament_from_finda cfg env w = some (false, w) := by
  simp [unload_filament_from_finda, hp]

theorem unload_filament_from_extruder_to_finda_paused {w : World} (cfg : Config) (env : Env)
    (hp : w.mmu.is_paused = true) :
    unload_filament_from_extruder_to_finda cfg env w = some (false, w) := by
  simp [unload_filament_from_extruder_to_finda, hp]

theorem unload_filament_from_extruder_paused {w : World} (cfg : Config) (env : Env)
    (hp : w.mmu.is_paused = true) :
    unload_filament_from_extruder cfg env w = some (false, w) := by
  simp [unload_filament_from_extruder, hp]

theorem load_tool_paused {w : World} (cfg : Config) (env : Env) (t : Option Int)
    (hp : w.mmu.is_paused = true) : load_tool cfg env t w = some (false, w) := by
  simp [load_tool, hp]

theorem unload_tool_paused {w : World} (cfg : Config) (env : Env)
    (hp : w.mmu.is_paused = true) : unload_tool cfg env w = some (false, w) := by
  simp [unload_tool, hp]

theorem eject_from_extruder_paused {w : World} (cfg : Config) (env : Env)
    (hp : w.mmu.is_paused = true) : eject_from_extruder cfg env w = (false, w) := by
  simp [eject_from_extruder, hp]

theorem eject_ramming_paused {w : World} (cfg : Config) (env : Env)
    (hp : w.mmu.is_paused = true) : eject_ramming cfg env w = some (false, w) := by
  simp [eject_ramming, hp]

theorem cut_filament_paused {w : World} (cfg : Config) (env : Env) (tid : Int)
    (hp : w.mmu.is_paused = true) : cut_filament cfg env tid w = some (false, w) := by
  simp [cut_filament, hp]

theorem home_mmu_only_paused {w : World} (cfg : Config)
    (hp : w.mmu.is_paused = true) : home_mmu_only cfg w = some (false, w) := by
  simp [home_mmu_only, hp]

/-- C1 (counterexample): the claim quantifies over every motion-issuing entry
point and names `load_filament_to_finda_in_loop` among them, but that
registered command has no pause guard: invoked from a paused state (with one
configured retry and FINDA never reporting presence) it issues two actuator
calls — a pulley `do_set_position` and a pulley `do_homing_move` — instead
of zero. -/
theorem claim1_counterexample :
    pausedW.mmu.is_paused = true ∧ pausedW.trace = [] ∧
    (load_filament_to_finda_in_loop oneRetryCfg idleEnv pausedW).1 = false ∧
    (load_filament_to_finda_in_loop oneRetryCfg idleEnv pausedW).2.trace =
      [.do_set_position .pulley 0, .do_homing_move .pulley 120 20 50 true false] := by
  refine ⟨rfl, rfl, rfl, rfl⟩

/-- C1 (amended): every guarded motion-issuing entry point — `select_tool`,
`unselect_tool`, and all load/unload entry points other than the bare retry
loops (`load_filament_to_finda_in_loop`, `unload_filament_to_finda_in_loop`)
and the retry helpers, which lack the pause guard — when invoked in a state
with `is_paused = true`, returns failure, leaves the state unchanged, and
issues zero actuator calls. -/
theorem claim1_amended (cfg : Config) (env : Env) (t : Option Int) (tid : Int) (w : World)
    (hp : w.mmu.is_paused = true) :
    select_tool cfg t w = some (false, w) ∧
    unselect_tool cfg w = (false, w) ∧
    load_filament_to_finda cfg env w = (false, w) ∧
    load_filament_from_finda_to_extruder cfg w = (false, w) ∧
    load_filament_to_extruder cfg env w = (false, w) ∧
    load_filament_in_extruder cfg env w = some (false, w) ∧
    unload_filament_in_extruder cfg env w = (false, w) ∧
    unload_filament_in_extruder_with_ramming cfg env w = (false, w) ∧
    unload_filament_from_finda cfg env w = some (false, w) ∧
    unload_filament_from_extruder_to_finda cfg env w = some (false, w) ∧
    unload_filament_from_extruder cfg env w = some (false, w) ∧
    load_tool cfg env t w = some (false, w) ∧
    unload_tool cfg env w = some (false, w) ∧
    eject_from_extruder cfg env w = (false, w) ∧
    eject_ramming cfg env w = some (false, w) ∧
    cut_filament cfg env tid w = some (false, w) ∧
    home_mmu_only cfg w = some (false, w) :=
  ⟨select_tool_paused cfg t hp, unselect_tool_paused cfg hp,
   load_filament_to_finda_paused cfg env hp,
   load_filament_from_finda_to_extruder_paused cfg hp,
   load_filament_to_extruder_paused cfg env hp,
   load_filament_in_extruder_paused cfg env hp,
   unload_filament_in_extruder_paused cfg env hp,
   unload_filament_in_extruder_with_ramming_paused cfg env hp,
   unload_filament_from_finda_paused cfg env hp,
   unload_filament_from_extruder_to_finda_paused cfg env hp,
   unload_filament_from_extruder_paused cfg env hp,
   load_tool_paused cfg env t hp, unload_tool_paused cfg env hp,
   eject_from_extruder_paused cfg env hp, eject_ramming_paused cfg env hp,
   cut_filament_paused cfg env tid hp, home_mmu_only_paused cfg hp⟩

/-- C1 (witness): the amended pause gate evaluated at the sample
configuration and a concrete paused world. -/
theorem claim1_witness :
    select_tool sampleCfg (some 1) pausedW = some (false, pausedW) ∧
    unselect_tool sampleCfg pausedW = (false, pausedW) ∧
    load_filament_to_finda sampleCfg idleEnv pausedW = (false, pausedW) ∧
    load_filament_from_finda_to_extruder sampleCfg pausedW = (false, pausedW) ∧
    load_filament_to_extruder sampleCfg idleEnv pausedW = (false, pausedW) ∧
    load_filament_in_extruder sampleCfg idleEnv pausedW = some (false, pausedW) ∧
    unload_filament_in_extruder sampleCfg idleEnv pausedW = (false, pausedW) ∧
    unload_filament_in_extruder_with_ramming sampleCfg idleEnv pausedW = (false, pausedW) ∧
    unload_filament_from_finda sampleCfg idleEnv pausedW = some (false, pausedW) ∧
    unload_filament_from_extruder_to_finda sampleCfg idleEnv pausedW = some (false, pausedW) ∧
    unload_filament_from_extruder sampleCfg idleEnv pausedW = some (false, pausedW) ∧
    load_tool sampleCfg idleEnv (some 1) pausedW = some (false, pausedW) ∧
    unload_tool sampleCfg idleEnv pausedW = some (false, pausedW) ∧
    eject_from_extruder sampleCfg idleEnv pausedW = (false, pausedW) ∧
    eject_ramming sampleCfg idleEnv pausedW = some (false, pausedW) ∧
    cut_filament sampleCfg idleEnv 1 pausedW = some (false, pausedW) ∧
    home_mmu_only sampleCfg pausedW = some (false, pausedW) :=
  claim1_amended sampleCfg idleEnv (some 1) 1 pausedW rfl

/-- C9 (confirmed): the `T<n>` tool-change command is idempotent when
`current_filament` already equals the requested tool: it returns immediately
with the world — MMU state, query counters, and trace — unchanged, hence
zero motion calls. -/
theorem claim9_tool_change_idempotent (cfg : Config) (env : Env) (tool_id : Int) (w : World)
    (h : w.mmu.current_filament = some tool_id) :
    cmd_tx cfg env tool_id w = some ((), w) := by
  simp [cmd_tx, h]

/-- C9 (witness): the idempotent tool change evaluated with filament 0
already loaded. -/
theorem claim9_witness : cmd_tx sampleCfg idleEnv 0 loadedW = some ((), loadedW) :=
  claim9_tool_change_idempotent sampleCfg idleEnv 0 loadedW rfl

/-- C8 (counterexample): with a cold hotend, `load_filament_in_extruder`
does return failure, but contrary to the claim it pauses: the thermal guard
it uses (`validate_hotend_is_hot_enough`) invokes `pause()` on failure, so
`is_paused` flips from `false` to `true`. -/
theorem claim8_counterexample :
    readyW.mmu.is_paused = false ∧
    (load_filament_in_extruder sampleCfg coldEnv readyW).map
      (fun p => (p.1, p.2.mmu.is_paused)) = some (false, true) :=
  ⟨rfl, rfl⟩

/-- C8 (amended): when the hotend is below `min_temp_extruder`, the
operations that move filament through the extruder refuse, but the main
entry points `load_filament_in_extruder`, `unload_filament_in_extruder` and
`unload_filament_in_extruder_with_ramming` escalate by pausing (their
thermal guard invokes `pause()`); only the correction helpers
`retry_load_filament_in_extruder` and `retry_unload_filament_in_extruder`
return failure without pausing, leaving escalation to the caller. -/
theorem claim8_amended (cfg : Config) (env : Env) (w v : World)
    (hp : w.mmu.is_paused = false)
    (hcold : env.temp w.tempIdx < cfg.min_temp_extruder)
    (hext : env.extruder w.extruderIdx = false)
    (hpv : v.mmu.is_paused = false)
    (hcoldv : env.temp v.tempIdx < cfg.min_temp_extruder)
    (hextv : env.extruder v.extruderIdx = true) :
    load_filament_in_extruder cfg env w =
      some (false, pause env { w with tempIdx := w.tempIdx + 1 }) ∧
    unload_filament_in_extruder cfg env w =
      (false, pause env { w with tempIdx := w.tempIdx + 1 }) ∧
    unload_filament_in_extruder_with_ramming cfg env w =
      (false, pause env { w with tempIdx := w.tempIdx + 1 }) ∧
    retry_load_filament_in_extruder cfg env w =
      some (false, { w with extruderIdx := w.extruderIdx + 1, tempIdx := w.tempIdx + 1 }) ∧
    retry_unload_filament_in_extruder cfg env v =
      (false, { v with extruderIdx := v.extruderIdx + 1, tempIdx := v.tempIdx + 1 }) := by
  refine ⟨?_, ?_, ?_, ?_, ?_⟩
  · simp [load_filament_in_extruder, validate_hotend_is_hot_enough, read_temp, hp, hcold]
  · simp [unload_filament_in_extruder, validate_hotend_is_hot_enough, read_temp, hp, hcold]
  · simp [unload_filament_in_extruder_with_ramming, validate_hotend_is_hot_enough,
      read_temp, hp, hcold]
  · simp [retry_load_filament_in_extruder, query_extruder, read_temp, hp, hcold, hext]
  · simp [retry_unload_filament_in_extruder, query_extruder, read_temp, hpv, hcoldv, hextv]

/-- C8 (witness): the thermal-guard behaviour evaluated at the sample
configuration and a cold environment; the retry-unload conjunct is exercised
at query index 1 where the extruder sensor reports filament. -/
theorem claim8_witness :
    load_filament_in_extruder sampleCfg coldMixEnv readyW =
      some (false, pause coldMixEnv { readyW with tempIdx := readyW.tempIdx + 1 }) ∧
    unload_filament_in_extruder sampleCfg coldMixEnv readyW =
      (false, pause coldMixEnv { readyW with tempIdx := readyW.tempIdx + 1 }) ∧
    unload_filament_in_extruder_with_ramming sampleCfg coldMixEnv readyW =
      (false, pause coldMixEnv { readyW with tempIdx := readyW.tempIdx + 1 }) ∧
    retry_load_filament_in_extruder sampleCfg coldMixEnv readyW =
      some (false, { readyW with extruderIdx := readyW.extruderIdx + 1,
                                 tempIdx := readyW.tempIdx + 1 }) ∧
    retry_unload_filament_in_extruder sampleCfg coldMixEnv
        { readyW with extruderIdx := 1 } =
      (false, { { readyW with extruderIdx := 1 } with
                  extruderIdx := { readyW with extruderIdx := 1 }.extruderIdx + 1,
                  tempIdx := { readyW with extruderIdx := 1 }.tempIdx + 1 }) :=
  claim8_amended sampleCfg coldMixEnv readyW { readyW with extruderIdx := 1 }
    rfl (by decide) rfl rfl (by decide) rfl

/-- C5 (counterexample): in a homed, unpaused state, `select_tool` called
with `tool_id = number_of_tools` (one past the last lane of the sample
five-tool configuration) does not return failure: the subscription
`idler_positions[tool_id]` raises `IndexError` (modelled as `none`), so the
upper-bound case of the claim fails. -/
theorem claim5_counterexample :
    readyW.mmu.is_paused = false ∧ readyW.mmu.is_homed = true ∧
    sampleCfg.number_of_tools = 5 ∧
    select_tool sampleCfg (some 5) readyW = none :=
  ⟨rfl, rfl, rfl, rfl⟩

/-- C5 (amended): `select_tool` refuses — returns failure with the world
unchanged — when paused, when not homed, and when `tool_id` is `None` or
negative; but for `tool_id ≥ number_of_tools` (position tables of length
`number_of_tools`) it raises an index error instead of returning failure. -/
theorem claim5_amended (cfg : Config) (w1 w2 w3 : World) (t : Option Int) (tid tid5 : Int)
    (hp1 : w1.mmu.is_paused = true)
    (hp2 : w2.mmu.is_paused = false) (hh2 : w2.mmu.is_homed = false)
    (hp3 : w3.mmu.is_paused = false) (hh3 : w3.mmu.is_homed = true)
    (hneg : tid < 0)
    (hlen : cfg.idler_positions.length = cfg.number_of_tools)
    (hbig : (cfg.number_of_tools : Int) ≤ tid5) :
    select_tool cfg t w1 = some (false, w1) ∧
    select_tool cfg t w2 = some (false, w2) ∧
    select_tool cfg none w3 = some (false, w3) ∧
    select_tool cfg (some tid) w3 = some (false, w3) ∧
    select_tool cfg (some tid5) w3 = none := by
  have h0 : ¬ tid5 < 0 := by omega
  have hnone : cfg.idler_positions[tid5.toNat]? = none := by
    apply List.getElem?_eq_none
    omega
  refine ⟨?_, ?_, ?_, ?_, ?_⟩
  · simp [select_tool, hp1]
  · simp [select_tool, hp2, hh2]
  · simp [select_tool, hp3, hh3]
  · simp [select_tool, hp3, hh3, hneg]
  · simp [select_tool, hp3, hh3, h0, pyIndex, hnone]

/-- C5 (witness): the guard behaviour of `select_tool` evaluated at the
sample configuration with a paused, an unhomed, and a ready world, and both
an in-range negative and an out-of-range id. -/
theorem claim5_witness :
    select_tool sampleCfg (some 1) pausedW = some (false, pausedW) ∧
    select_tool sampleCfg (some 1) unhomedW = some (false, unhomedW) ∧
    select_tool sampleCfg none readyW = some (false, readyW) ∧
    select_tool sampleCfg (some (-1)) readyW = some (false, readyW) ∧
    select_tool sampleCfg (some 7) readyW = none :=
  claim5_amended sampleCfg pausedW unhomedW readyW (some 1) (-1) 7
    rfl rfl rfl rfl rfl (by decide) rfl (by decide)

theorem load_finda_loop_exhaust (cfg : Config) (env : Env) :
    ∀ (n : Nat) (w : World), (∀ k, k < n → env.finda (w.findaIdx + k) = false) →
      (load_finda_loop cfg env n w).1 = false ∧
      pulleyHomingMoves (load_finda_loop cfg env n w).2.trace
        = pulleyHomingMoves w.trace + n ∧
      (load_finda_loop cfg env n w).2.mmu.is_paused = true ∧
      (load_finda_loop cfg env n w).2.tempIdx = w.tempIdx + 1 := by
  intro n
  induction n with
  | zero => intro w h; simp [load_finda_loop]
  | succ n ih =>
    intro w h
    have h0 : env.finda w.findaIdx = false := by simpa using h 0 (Nat.succ_pos n)
    have ih2 := ih
      { w with
        findaIdx := w.findaIdx + 1,
        trace := w.trace ++ [StepperCall.do_set_position .pulley 0,
          StepperCall.do_homing_move .pulley cfg.finda_load_length
            cfg.finda_load_speed cfg.finda_load_accel true false] }
      (by intro k hk; simpa [Nat.add_assoc, Nat.add_comm 1 k] using h (k + 1) (by omega))
    simp only [load_finda_loop, query_finda, emit_findaIdx, emit_extruderIdx, emit_mmu,
      emit_trace, emit_tempIdx, h0, if_false, Bool.false_eq_true] at ih2 ⊢
    simp only [List.append_assoc, List.cons_append, List.nil_append] at ih2 ⊢
    refine ⟨ih2.1, ?_, ih2.2.2⟩
    rw [ih2.2.1]
    simp [pulleyHomingMoves, isPulleyHomingMove]
    omega

theorem load_finda_loop_success (cfg : Config) (env : Env) :
    ∀ (n j : Nat) (w : World), j < n →
      (∀ k, k < j → env.finda (w.findaIdx + k) = false) →
      env.finda (w.findaIdx + j) = true →
      (load_finda_loop cfg env n w).1 = true ∧
      pulleyHomingMoves (load_finda_loop cfg env n w).2.trace
        = pulleyHomingMoves w.trace + (j + 1) ∧
      (load_finda_loop cfg env n w).2.mmu = w.mmu ∧
      (load_finda_loop cfg env n w).2.tempIdx = w.tempIdx := by
  intro n
  induction n with
  | zero => intro j w hj; omega
  | succ n ih =>
    intro j w hj hf ht
    match j with
    | 0 =>
      have h0 : env.finda w.findaIdx = true := by simpa using ht
      simp only [load_finda_loop, query_finda, emit_findaIdx, emit_extruderIdx, emit_mmu,
        emit_trace, emit_tempIdx, h0, if_true]
      simp [pulleyHomingMoves, isPulleyHomingMove]
    | j + 1 =>
      have h0 : env.finda w.findaIdx = false := by simpa using hf 0 (Nat.succ_pos j)
      have ih2 := ih j
        { w with
          findaIdx := w.findaIdx + 1,
          trace := w.trace ++ [StepperCall.do_set_position .pulley 0,
            StepperCall.do_homing_move .pulley cfg.finda_load_length
              cfg.finda_load_speed cfg.finda_load_accel true false] }
        (by omega)
        (by intro k hk; simpa [Nat.add_assoc, Nat.add_comm 1 k] using hf (k + 1) (by omega))
        (by simpa [Nat.add_assoc, Nat.add_comm 1 j] using ht)
      simp only [load_finda_loop, query_finda, emit_findaIdx, emit_extruderIdx, emit_mmu,
        emit_trace, emit_tempIdx, h0, if_false, Bool.false_eq_true] at ih2 ⊢
      simp only [List.append_assoc, List.cons_append, List.nil_append] at ih2 ⊢
      refine ⟨ih2.1, ?_, ih2.2.2⟩
      rw [ih2.2.1]
      simp [pulleyHomingMoves, isPulleyHomingMove]
      omega

/-- C4 (confirmed): for any configured retry bound, if FINDA never reports
presence then `load_filament_to_finda_in_loop` performs exactly
`finda_load_retry` pulley homing-move attempts, invokes `pause()` exactly
once (one temperature snapshot, `is_paused` becomes true) and returns
failure; if FINDA first reports presence on 0-based attempt `j` within the
bound, it returns success after exactly `j + 1` homing-move attempts with
the MMU state untouched and no pause (no temperature snapshot). -/
theorem claim4_bounded_retry (cfg : Config) (envA envB : Env) (wA wB : World) (j : Nat)
    (hA : ∀ k, envA.finda k = false)
    (hj : j < cfg.finda_load_retry)
    (hBfalse : ∀ k, k < j → envB.finda (wB.findaIdx + k) = false)
    (hBtrue : envB.finda (wB.findaIdx + j) = true) :
    ((load_filament_to_finda_in_loop cfg envA wA).1 = false ∧
     pulleyHomingMoves (load_filament_to_finda_in_loop cfg envA wA).2.trace
       = pulleyHomingMoves wA.trace + cfg.finda_load_retry ∧
     (load_filament_to_finda_in_loop cfg envA wA).2.mmu.is_paused = true ∧
     (load_filament_to_finda_in_loop cfg envA wA).2.tempIdx = wA.tempIdx + 1) ∧
    ((load_filament_to_finda_in_loop cfg envB wB).1 = true ∧
     pulleyHomingMoves (load_filament_to_finda_in_loop cfg envB wB).2.trace
       = pulleyHomingMoves wB.trace + (j + 1) ∧
     (load_filament_to_finda_in_loop cfg envB wB).2.mmu = wB.mmu ∧
     (load_filament_to_finda_in_loop cfg envB wB).2.tempIdx = wB.tempIdx) := by
  constructor
  · exact load_finda_loop_exhaust cfg envA cfg.finda_load_retry wA
      (fun k _ => hA (wA.findaIdx + k))
  · exact load_finda_loop_success cfg envB cfg.finda_load_retry j wB hj hBfalse hBtrue

/-- C4 (witness): Scenario A of the specification — three retries, sensor
never triggers — and a success on the second attempt, both evaluated
concretely. -/
theorem claim4_witness :
    ((load_filament_to_finda_in_loop sampleCfg idleEnv readyW).1 = false ∧
     pulleyHomingMoves (load_filament_to_finda_in_loop sampleCfg idleEnv readyW).2.trace
       = pulleyHomingMoves readyW.trace + sampleCfg.finda_load_retry ∧
     (load_filament_to_finda_in_loop sampleCfg idleEnv readyW).2.mmu.is_paused = true ∧
     (load_filament_to_finda_in_loop sampleCfg idleEnv readyW).2.tempIdx
       = readyW.tempIdx + 1) ∧
    ((load_filament_to_finda_in_loop sampleCfg cutEnv readyW).1 = true ∧
     pulleyHomingMoves (load_filament_to_finda_in_loop sampleCfg cutEnv readyW).2.trace
       = pulleyHomingMoves readyW.trace + (1 + 1) ∧
     (load_filament_to_finda_in_loop sampleCfg cutEnv readyW).2.mmu = readyW.mmu ∧
     (load_filament_to_finda_in_loop sampleCfg cutEnv readyW).2.tempIdx
       = readyW.tempIdx) :=
  claim4_bounded_retry sampleCfg idleEnv cutEnv readyW readyW 1
    (fun _ => rfl) (by decide) (by decide) (by decide)

theorem validate_filament_in_extruder_keep (env : Env) (w : World) :
    (validate_filament_in_extruder env w).2.mmu.is_homed = w.mmu.is_homed ∧
    (validate_filament_in_extruder env w).2.mmu.current_tool = w.mmu.current_tool ∧
    (validate_filament_in_extruder env w).2.mmu.current_filament = w.mmu.current_filament := by
  simp only [validate_filament_in_extruder, query_extruder]
  split <;> simp

theorem validate_filament_not_stuck_in_extruder_keep (env : Env) (w : World) :
    (validate_filament_not_stuck_in_extruder env w).2.mmu.is_homed = w.mmu.is_homed ∧
    (validate_filament_not_stuck_in_extruder env w).2.mmu.current_tool = w.mmu.current_tool ∧
    (validate_filament_not_stuck_in_extruder env w).2.mmu.current_filament
      = w.mmu.current_filament := by
  simp only [validate_filament_not_stuck_in_extruder, query_extruder]
  split <;> simp

theorem validate_filament_is_in_finda_keep (env : Env) (w : World) :
    (validate_filament_is_in_finda env w).2.mmu.is_homed = w.mmu.is_homed ∧
    (validate_filament_is_in_finda env w).2.mmu.current_tool = w.mmu.current_tool ∧
    (validate_filament_is_in_finda env w).2.mmu.current_filament = w.mmu.current_filament := by
  simp only [validate_filament_is_in_finda, query_finda]
  split <;> simp

theorem validate_filament_not_stuck_in_finda_keep (env : Env) (w : World) :
    (validate_filament_not_stuck_in_finda env w).2.mmu.is_homed = w.mmu.is_homed ∧
    (validate_filament_not_stuck_in_finda env w).2.mmu.current_tool = w.mmu.current_tool ∧
    (validate_filament_not_stuck_in_finda env w).2.mmu.current_filament
      = w.mmu.current_filament := by
  simp only [validate_filament_not_stuck_in_finda, query_finda]
  split <;> simp

theorem validate_hotend_is_hot_enough_keep (cfg : Config) (env : Env) (w : World) :
    (validate_hotend_is_hot_enough cfg env w).2.mmu.is_homed = w.mmu.is_homed ∧
    (validate_hotend_is_hot_enough cfg env w).2.mmu.current_tool = w.mmu.current_tool ∧
    (validate_hotend_is_hot_enough cfg env w).2.mmu.current_filament
      = w.mmu.current_filament := by
  simp only [validate_hotend_is_hot_enough, read_temp]
  split <;> simp

theorem load_finda_loop_keep (cfg : Config) (env : Env) :
    ∀ (n : Nat) (w : World),
      (load_finda_loop cfg env n w).2.mmu.is_homed = w.mmu.is_homed ∧
      (load_finda_loop cfg env n w).2.mmu.current_tool = w.mmu.current_tool ∧
      (load_finda_loop cfg env n w).2.mmu.current_filament = w.mmu.current_filament := by
  intro n
  induction n with
  | zero => intro w; simp [load_finda_loop]
  | succ n ih =>
    intro w
    simp only [load_finda_loop, query_finda, emit_mmu, emit_findaIdx, emit_extruderIdx,
      emit_tempIdx]
    split
    · simp
    · simpa using ih _

theorem unload_finda_loop_keep (cfg : Config) (env : Env) :
    ∀ (n : Nat) (w : World),
      (unload_finda_loop cfg env n w).2.mmu.is_homed = w.mmu.is_homed ∧
      (unload_finda_loop cfg env n w).2.mmu.current_tool = w.mmu.current_tool ∧
      (unload_finda_loop cfg env n w).2.mmu.current_filament = w.mmu.current_filament := by
  intro n
  induction n with
  | zero => intro w; simp [unload_finda_loop]
  | succ n ih =>
    intro w
    simp only [unload_finda_loop, query_finda, emit_mmu, emit_findaIdx, emit_extruderIdx,
      emit_tempIdx]
    split
    · simp
    · simpa using ih _

theorem unselect_tool_keep (cfg : Config) (w : World) :
    (unselect_tool cfg w).2.mmu.is_homed = w.mmu.is_homed ∧
    (unselect_tool cfg w).2.mmu.is_paused = w.mmu.is_paused ∧
    (unselect_tool cfg w).2.mmu.current_filament = w.mmu.current_filament := by
  unfold unselect_tool
  repeat' split
  all_goals simp

theorem unselect_tool_ready (cfg : Config) (w : World)
    (hp : w.mmu.is_paused = false) (hh : w.mmu.is_homed = true) :
    (unselect_tool cfg w).2.mmu.current_tool = none := by
  simp [unselect_tool, hp, hh]

theorem unselect_tool_tool (cfg : Config) (w : World) :
    (unselect_tool cfg w).2.mmu.current_tool = w.mmu.current_tool ∨
    (unselect_tool cfg w).2.mmu.current_tool = none := by
  unfold unselect_tool
  repeat' split
  all_goals simp

theorem select_tool_keep {cfg : Config} {t : Option Int} {w : World} {r : Bool} {w2 : World}
    (h : select_tool cfg t w = some (r, w2)) :
    w2.mmu.is_homed = w.mmu.is_homed ∧ w2.mmu.is_paused = w.mmu.is_paused ∧
    w2.mmu.current_filament = w.mmu.current_filament := by
  unfold select_tool at h
  repeat' split at h
  all_goals simp_all
  all_goals (obtain ⟨h1, h2⟩ := h; subst h2; simp)

theorem select_tool_false {cfg : Config} {t : Option Int} {w : World} {w2 : World}
    (h : select_tool cfg t w = some (false, w2)) : w2 = w := by
  unfold select_tool at h
  repeat' split at h
  all_goals simp_all

theorem select_tool_true {cfg : Config} {t : Option Int} {w : World} {w2 : World}
    (h : select_tool cfg t w = some (true, w2)) :
    w.mmu.is_homed = true ∧ w.mmu.is_paused = false ∧
    ∃ tid, t = some tid ∧ w2.mmu.current_tool = some tid := by
  unfold select_tool at h
  repeat' split at h
  all_goals simp_all
  all_goals (subst h; simp)

@[simp] theorem retry_unload_filament_in_extruder_mmu (cfg : Config) (env : Env) (w : World) :
    (retry_unload_filament_in_extruder cfg env w).2.mmu = w.mmu := by
  simp only [retry_unload_filament_in_extruder, query_extruder, read_temp]
  repeat' split
  all_goals simp

@[simp] theorem retry_unload_loop_mmu (cfg : Config) (env : Env) :
    ∀ (n : Nat) (w : World), (retry_unload_loop cfg env n w).mmu = w.mmu := by
  intro n
  induction n with
  | zero => intro w; rfl
  | succ n ih =>
    intro w
    unfold retry_unload_loop
    rw [ih]
    exact retry_unload_filament_in_extruder_mmu cfg env w

theorem auto_unselect_keep (cfg : Config) (w : World) :
    (if w.mmu.current_tool != none then (unselect_tool cfg w).2 else w).mmu.is_homed
      = w.mmu.is_homed ∧
    (if w.mmu.current_tool != none then (unselect_tool cfg w).2 else w).mmu.current_filament
      = w.mmu.current_filament := by
  split
  · exact ⟨(unselect_tool_keep cfg w).1, (unselect_tool_keep cfg w).2.2⟩
  · exact ⟨rfl, rfl⟩

theorem unload_filament_in_extruder_keep (cfg : Config) (env : Env) (w : World) :
    (unload_filament_in_extruder cfg env w).2.mmu.is_homed = w.mmu.is_homed ∧
    (unload_filament_in_extruder cfg env w).2.mmu.current_filament
      = w.mmu.current_filament := by
  unfold unload_filament_in_extruder
  split
  · simp
  · rcases hv : validate_hotend_is_hot_enough cfg env w with ⟨b1, w1⟩
    have hk := validate_hotend_is_hot_enough_keep cfg env w
    rw [hv] at hk
    simp only at hk
    cases b1
    · simpa using ⟨hk.1, hk.2.2⟩
    · simp only [query_extruder]
      split
      · simpa using ⟨hk.1, hk.2.2⟩
      · by_cases hc : (w1.mmu.current_tool != none) = true
        · simp only [hc, if_true]
          generalize hU : (unselect_tool cfg { w1 with extruderIdx := w1.extruderIdx + 1 }).2 = w3
          have hk3 := unselect_tool_keep cfg ({ w1 with extruderIdx := w1.extruderIdx + 1 } : World)
          rw [hU] at hk3
          simp only at hk3
          by_cases hr : env.extruder w3.extruderIdx = true
          · simp only [hr, if_true]
            rcases hvn : validate_filament_not_stuck_in_extruder env
              (retry_unload_loop cfg env cfg.unload_retry
                { w3 with extruderIdx := w3.extruderIdx + 1 }) with ⟨b2, w5⟩
            have hk5 := validate_filament_not_stuck_in_extruder_keep env
              (retry_unload_loop cfg env cfg.unload_retry
                { w3 with extruderIdx := w3.extruderIdx + 1 })
            rw [hvn] at hk5
            simp only [retry_unload_loop_mmu] at hk5
            cases b2 <;> simp_all
          · simp only [hr, if_false]
            rcases hvn : validate_filament_not_stuck_in_extruder env
              ({ w3 with extruderIdx := w3.extruderIdx + 1 } : World) with ⟨b2, w5⟩
            have hk5 := validate_filament_not_stuck_in_extruder_keep env
              ({ w3 with extruderIdx := w3.extruderIdx + 1 } : World)
            rw [hvn] at hk5
            simp only at hk5
            cases b2 <;> simp_all
        · simp only [hc, Bool.false_eq_true, if_false]
          by_cases hr : env.extruder (w1.extruderIdx + 1) = true
          · simp only [hr, if_true]
            rcases hvn : validate_filament_not_stuck_in_extruder env
              (retry_unload_loop cfg env cfg.unload_retry
                { w1 with extruderIdx := w1.extruderIdx + 1 + 1 }) with ⟨b2, w5⟩
            have hk5 := validate_filament_not_stuck_in_extruder_keep env
              (retry_unload_loop cfg env cfg.unload_retry
                { w1 with extruderIdx := w1.extruderIdx + 1 + 1 })
            rw [hvn] at hk5
            simp only [retry_unload_loop_mmu] at hk5
            cases b2 <;> simp_all
          · simp only [hr, if_false]
            rcases hvn : validate_filament_not_stuck_in_extruder env
              ({ w1 with extruderIdx := w1.extruderIdx + 1 + 1 } : World) with ⟨b2, w5⟩
            have hk5 := validate_filament_not_stuck_in_extruder_keep env
              ({ w1 with extruderIdx := w1.extruderIdx + 1 + 1 } : World)
            rw [hvn] at hk5
            simp only at hk5
            cases b2 <;> simp_all

theorem unload_filament_in_extruder_with_ramming_keep (cfg : Config) (env : Env) (w : World) :
    (unload_filament_in_extruder_with_ramming cfg env w).2.mmu.is_homed = w.mmu.is_homed ∧
    (unload_filament_in_extruder_with_ramming cfg env w).2.mmu.current_filament
      = w.mmu.current_filament := by
  unfold unload_filament_in_extruder_with_ramming
  split
  · simp
  · rcases hv : validate_hotend_is_hot_enough cfg env w with ⟨b1, w1⟩
    have hk := validate_hotend_is_hot_enough_keep cfg env w
    rw [hv] at hk
    simp only at hk
    cases b1
    · simpa using ⟨hk.1, hk.2.2⟩
    · by_cases hc : (w1.mmu.current_tool != none) = true
      · simp only [hc, if_true]
        generalize hU : (unselect_tool cfg w1).2 = w3
        have hk3 := unselect_tool_keep cfg w1
        rw [hU] at hk3
        rcases hun : unload_filament_in_extruder cfg env w3 with ⟨b2, w4⟩
        have hk4 := unload_filament_in_extruder_keep cfg env w3
        rw [hun] at hk4
        simp only at hk4
        cases b2 <;> simp_all
      · simp only [hc, Bool.false_eq_true, if_false]
        rcases hun : unload_filament_in_extruder cfg env w1 with ⟨b2, w4⟩
        have hk4 := unload_filament_in_extruder_keep cfg env w1
        rw [hun] at hk4
        simp only at hk4
        cases b2 <;> simp_all

theorem eject_from_extruder_keep (cfg : Config) (env : Env) (w : World) :
    (eject_from_extruder cfg env w).2.mmu.is_homed = w.mmu.is_homed ∧
    (eject_from_extruder cfg env w).2.mmu.current_filament = w.mmu.current_filament := by
  unfold eject_from_extruder
  split
  · simp
  · simp only [query_extruder, read_temp]
    split
    · simp
    · rcases hun : unload_filament_in_extruder_with_ramming cfg env
        { w with extruderIdx := w.extruderIdx + 1, tempIdx := w.tempIdx + 1 } with ⟨b2, w4⟩
      have hk4 := unload_filament_in_extruder_with_ramming_keep cfg env
        ({ w with extruderIdx := w.extruderIdx + 1, tempIdx := w.tempIdx + 1 } : World)
      rw [hun] at hk4
      simp only at hk4
      cases b2 <;> simp_all

theorem resolve_tool_keep {cfg : Config} {w : World} {r : Bool} {w2 : World}
    (h : resolve_tool cfg w = some (r, w2)) :
    w2.mmu.is_homed = w.mmu.is_homed ∧ w2.mmu.is_paused = w.mmu.is_paused ∧
    w2.mmu.current_filament = w.mmu.current_filament := by
  unfold resolve_tool at h
  repeat' split at h
  all_goals simp_all
  all_goals (rename_i heq; obtain ⟨h1, h2⟩ := h; subst h2; exact select_tool_keep heq)

theorem unload_filament_from_finda_char (cfg : Config) (env : Env) (w : World) :
    SatR (unload_filament_from_finda cfg env w) (fun r w2 =>
      w2.mmu.is_homed = w.mmu.is_homed ∧
      w2.mmu.current_filament = (if r then none else w.mmu.current_filament)) := by
  unfold unload_filament_from_finda
  split
  · simp [SatR]
  · rcases hres : resolve_tool cfg w with _ | ⟨b, wA⟩
    · simp [SatR]
    · have hkA := resolve_tool_keep hres
      cases b
      · simp [SatR, hkA.1, hkA.2.2]
      · rcases hvn : validate_filament_not_stuck_in_finda env
          (disable_steppers [Stepper.pulley]
            (((wA.emit (StepperCall.do_set_position Stepper.pulley 0)).emit
              (StepperCall.do_move Stepper.pulley (-cfg.finda_unload_length)
                cfg.finda_unload_speed cfg.finda_unload_accel)).emit
              (StepperCall.do_set_position Stepper.pulley 0))) with ⟨b2, wB⟩
        have hkB := validate_filament_not_stuck_in_finda_keep env
          (disable_steppers [Stepper.pulley]
            (((wA.emit (StepperCall.do_set_position Stepper.pulley 0)).emit
              (StepperCall.do_move Stepper.pulley (-cfg.finda_unload_length)
                cfg.finda_unload_speed cfg.finda_unload_accel)).emit
              (StepperCall.do_set_position Stepper.pulley 0)))
        rw [hvn] at hkB
        simp only [disable_steppers_mmu, emit_mmu] at hkB
        cases b2 <;> simp_all [SatR]

theorem validate_filament_not_stuck_in_finda_keepH {env : Env} {x : World} {r : Bool}
    {w2 : World} (h : validate_filament_not_stuck_in_finda env x = (r, w2)) :
    w2.mmu.is_homed = x.mmu.is_homed ∧ w2.mmu.current_tool = x.mmu.current_tool ∧
    w2.mmu.current_filament = x.mmu.current_filament := by
  have hk := validate_filament_not_stuck_in_finda_keep env x
  rw [h] at hk
  simpa using hk

theorem validate_filament_not_stuck_in_extruder_keepH {env : Env} {x : World} {r : Bool}
    {w2 : World} (h : validate_filament_not_stuck_in_extruder env x = (r, w2)) :
    w2.mmu.is_homed = x.mmu.is_homed ∧ w2.mmu.current_tool = x.mmu.current_tool ∧
    w2.mmu.current_filament = x.mmu.current_filament := by
  have hk := validate_filament_not_stuck_in_extruder_keep env x
  rw [h] at hk
  simpa using hk

theorem unload_filament_to_finda_in_loop_keepH {cfg : Config} {env : Env} {x : World}
    {r : Bool} {w2 : World} (h : unload_filament_to_finda_in_loop cfg env x = (r, w2)) :
    w2.mmu.is_homed = x.mmu.is_homed ∧ w2.mmu.current_tool = x.mmu.current_tool ∧
    w2.mmu.current_filament = x.mmu.current_filament := by
  have hk := unload_finda_loop_keep cfg env cfg.finda_unload_retry x
  have h2 : unload_finda_loop cfg env cfg.finda_unload_retry x = (r, w2) := h
  rw [h2] at hk
  simpa using hk

theorem load_filament_to_finda_in_loop_keepH {cfg : Config} {env : Env} {x : World}
    {r : Bool} {w2 : World} (h : load_filament_to_finda_in_loop cfg env x = (r, w2)) :
    w2.mmu.is_homed = x.mmu.is_homed ∧ w2.mmu.current_tool = x.mmu.current_tool ∧
    w2.mmu.current_filament = x.mmu.current_filament := by
  have hk := load_finda_loop_keep cfg env cfg.finda_load_retry x
  have h2 : load_finda_loop cfg env cfg.finda_load_retry x = (r, w2) := h
  rw [h2] at hk
  simpa using hk

theorem validate_filament_is_in_finda_keepH {env : Env} {x : World} {r : Bool}
    {w2 : World} (h : validate_filament_is_in_finda env x = (r, w2)) :
    w2.mmu.is_homed = x.mmu.is_homed ∧ w2.mmu.current_tool = x.mmu.current_tool ∧
    w2.mmu.current_filament = x.mmu.current_filament := by
  have hk := validate_filament_is_in_finda_keep env x
  rw [h] at hk
  simpa using hk

theorem unload_filament_in_extruder_keepH {cfg : Config} {env : Env} {x : World} {r : Bool}
    {w2 : World} (h : unload_filament_in_extruder cfg env x = (r, w2)) :
    w2.mmu.is_homed = x.mmu.is_homed ∧ w2.mmu.current_filament = x.mmu.current_filament := by
  have hk := unload_filament_in_extruder_keep cfg env x
  rw [h] at hk
  simpa using hk

theorem unload_filament_in_extruder_with_ramming_keepH {cfg : Config} {env : Env} {x : World}
    {r : Bool} {w2 : World} (h : unload_filament_in_extruder_with_ramming cfg env x = (r, w2)) :
    w2.mmu.is_homed = x.mmu.is_homed ∧ w2.mmu.current_filament = x.mmu.current_filament := by
  have hk := unload_filament_in_extruder_with_ramming_keep cfg env x
  rw [h] at hk
  simpa using hk

theorem eject_from_extruder_keepH {cfg : Config} {env : Env} {x : World} {r : Bool}
    {w2 : World} (h : eject_from_extruder cfg env x = (r, w2)) :
    w2.mmu.is_homed = x.mmu.is_homed ∧ w2.mmu.current_filament = x.mmu.current_filament := by
  have hk := eject_from_extruder_keep cfg env x
  rw [h] at hk
  simpa using hk
theorem unload_filament_from_extruder_to_finda_keep {cfg : Config} {env : Env} {w : World}
    {r : Bool} {w2 : World}
    (h : unload_filament_from_extruder_to_finda cfg env w = some (r, w2)) :
    w2.mmu.is_homed = w.mmu.is_homed ∧ w2.mmu.current_filament = w.mmu.current_filament := by
  unfold unload_filament_from_extruder_to_finda at h
  split at h
  · simp only [Option.some.injEq, Prod.mk.injEq] at h
    obtain ⟨h1, h2⟩ := h
    subst h2
    exact ⟨rfl, rfl⟩
  · split at h
    · exact Option.noConfusion h
    · rename_i wA heq
      simp only [Option.some.injEq, Prod.mk.injEq] at h
      obtain ⟨h1, h2⟩ := h
      subst h2
      have hkA := resolve_tool_keep heq
      exact ⟨hkA.1, hkA.2.2⟩
    · rename_i wA heq
      have hkA := resolve_tool_keep heq
      split at h
      · -- selector mode
        simp only [query_finda, emit_mmu, emit_findaIdx, emit_extruderIdx,
          emit_tempIdx] at h
        split at h
        · -- inner scrutinee gave (false, wB)
          rename_i wB heq2
          simp only [Option.some.injEq, Prod.mk.injEq] at h
          obtain ⟨h1, h2⟩ := h
          subst h2
          split at heq2
          · have hkB := unload_filament_to_finda_in_loop_keepH heq2
            simp only [emit_mmu] at hkB
            exact ⟨hkB.1.trans hkA.1, hkB.2.2.trans hkA.2.2⟩
          · simp only [Prod.mk.injEq] at heq2
            obtain ⟨hb, hw⟩ := heq2
            subst hw
            simpa using ⟨hkA.1, hkA.2.2⟩
        · -- inner scrutinee gave (true, wB)
          rename_i wB heq2
          have hkB : wB.mmu.is_homed = wA.mmu.is_homed ∧
              wB.mmu.current_filament = wA.mmu.current_filament := by
            split at heq2
            · have hkL := unload_filament_to_finda_in_loop_keepH heq2
              simp only [emit_mmu] at hkL
              exact ⟨hkL.1, hkL.2.2⟩
            · simp only [Prod.mk.injEq] at heq2
              obtain ⟨hb, hw⟩ := heq2
              subst hw
              simp
          split at h
          · rename_i wC heq3
            simp only [Option.some.injEq, Prod.mk.injEq] at h
            obtain ⟨h1, h2⟩ := h
            subst h2
            have hkC := validate_filament_not_stuck_in_finda_keepH heq3
            exact ⟨(hkC.1.trans hkB.1).trans hkA.1,
              (hkC.2.2.trans hkB.2).trans hkA.2.2⟩
          · rename_i wC heq3
            simp only [Option.some.injEq, Prod.mk.injEq] at h
            obtain ⟨h1, h2⟩ := h
            subst h2
            have hkC := validate_filament_not_stuck_in_finda_keepH heq3
            simp only [disable_steppers_mmu]
            exact ⟨(hkC.1.trans hkB.1).trans hkA.1,
              (hkC.2.2.trans hkB.2).trans hkA.2.2⟩
      · -- no-selector mode
        simp only [Option.some.injEq, Prod.mk.injEq] at h
        obtain ⟨h1, h2⟩ := h
        subst h2
        simpa using ⟨hkA.1, hkA.2.2⟩

theorem unload_filament_from_finda_charH {cfg : Config} {env : Env} {x : World} {r : Bool}
    {w2 : World} (h : unload_filament_from_finda cfg env x = some (r, w2)) :
    w2.mmu.is_homed = x.mmu.is_homed ∧
    w2.mmu.current_filament = (if r then none else x.mmu.current_filament) := by
  have hk := unload_filament_from_finda_char cfg env x
  rw [h] at hk
  simpa [SatR] using hk

theorem unload_filament_from_extruder_char {cfg : Config} {env : Env} {w : World} {r : Bool}
    {w2 : World} (h : unload_filament_from_extruder cfg env w = some (r, w2)) :
    w2.mmu.is_homed = w.mmu.is_homed ∧
    w2.mmu.current_filament =
      (if cfg.enable_no_selector_mode then w.mmu.current_filament
       else if r then none else w.mmu.current_filament) := by
  unfold unload_filament_from_extruder at h
  split at h
  · simp only [Option.some.injEq, Prod.mk.injEq] at h
    obtain ⟨h1, h2⟩ := h
    subst h2
    subst h1
    refine ⟨rfl, ?_⟩
    split <;> simp
  · split at h
    · exact Option.noConfusion h
    · rename_i wA heq
      simp only [Option.some.injEq, Prod.mk.injEq] at h
      obtain ⟨h1, h2⟩ := h
      subst h2
      subst h1
      have hkA := resolve_tool_keep heq
      refine ⟨hkA.1, ?_⟩
      split <;> simp [hkA.2.2]
    · rename_i wA heq
      have hkA := resolve_tool_keep heq
      split at h
      · exact Option.noConfusion h
      · rename_i wB heq2
        simp only [Option.some.injEq, Prod.mk.injEq] at h
        obtain ⟨h1, h2⟩ := h
        subst h2
        subst h1
        have hkB := unload_filament_from_extruder_to_finda_keep heq2
        refine ⟨hkB.1.trans hkA.1, ?_⟩
        split <;> simp [hkB.2.trans hkA.2.2]
      · rename_i wB heq2
        have hkB := unload_filament_from_extruder_to_finda_keep heq2
        split at h
        · -- no-selector mode: bowden clearance is already success
          rename_i hns
          simp only [Option.some.injEq, Prod.mk.injEq] at h
          obtain ⟨h1, h2⟩ := h
          subst h2
          subst h1
          simp only [hns, if_true]
          exact ⟨hkB.1.trans hkA.1, hkB.2.trans hkA.2.2⟩
        · rename_i hns
          split at h
          · exact Option.noConfusion h
          · rename_i wC heq3
            simp only [Option.some.injEq, Prod.mk.injEq] at h
            obtain ⟨h1, h2⟩ := h
            subst h2
            subst h1
            have hkC := unload_filament_from_finda_charH heq3
            simp only [hns, if_false, Bool.false_eq_true]
            simp only [if_false] at hkC
            exact ⟨(hkC.1.trans hkB.1).trans hkA.1,
              hkC.2.trans (hkB.2.trans hkA.2.2)⟩
          · rename_i wC heq3
            simp only [Option.some.injEq, Prod.mk.injEq] at h
            obtain ⟨h1, h2⟩ := h
            subst h2
            subst h1
            have hkC := unload_filament_from_finda_charH heq3
            simp only [hns, if_false, Bool.false_eq_true]
            simp only [if_true] at hkC
            exact ⟨(hkC.1.trans hkB.1).trans hkA.1, by simp [hkC.2]⟩

theorem eject_before_home_homed {cfg : Config} {env : Env} {w : World} {r : Bool}
    {w2 : World} (h : eject_before_home cfg env w = some (r, w2)) :
    w2.mmu.is_homed = w.mmu.is_homed := by
  unfold eject_before_home at h
  simp only [query_extruder, query_finda] at h
  split at h
  · -- stage 1 returned (false, w1)
    rename_i w1 heq
    simp only [Option.some.injEq, Prod.mk.injEq] at h
    obtain ⟨h1, h2⟩ := h
    subst h2
    split at heq
    · split at heq
      · rename_i wE heq2
        simp only [Prod.mk.injEq] at heq
        obtain ⟨hb, hw⟩ := heq
        subst hw
        simpa using (eject_from_extruder_keepH heq2).1
      · rename_i wE heq2
        have hkE := (eject_from_extruder_keepH heq2).1
        have hkV := (validate_filament_not_stuck_in_extruder_keepH heq).1
        simpa using hkV.trans hkE
    · simp only [Prod.mk.injEq] at heq
      obtain ⟨hb, hw⟩ := heq
      subst hw
      simp
  · -- stage 1 returned (true, w1)
    rename_i w1 heq
    have hk1 : w1.mmu.is_homed = w.mmu.is_homed := by
      split at heq
      · split at heq
        · rename_i wE heq2
          simp only [Prod.mk.injEq] at heq
          obtain ⟨hb, hw⟩ := heq
          subst hw
          simpa using (eject_from_extruder_keepH heq2).1
        · rename_i wE heq2
          have hkE := (eject_from_extruder_keepH heq2).1
          have hkV := (validate_filament_not_stuck_in_extruder_keepH heq).1
          simpa using hkV.trans hkE
      · simp only [Prod.mk.injEq] at heq
        obtain ⟨hb, hw⟩ := heq
        subst hw
        simp
    split at h
    · -- selector mode
      split at h
      · -- filament seen in FINDA
        split at h
        · exact Option.noConfusion h
        · rename_i wU heq2
          simp only [Option.some.injEq, Prod.mk.injEq] at h
          obtain ⟨h1, h2⟩ := h
          subst h2
          have hkU := (unload_filament_from_extruder_char heq2).1
          simpa using hkU.trans hk1
        · rename_i wU heq2
          have hkU := (unload_filament_from_extruder_char heq2).1
          split at h
          · rename_i wV heq3
            simp only [Option.some.injEq, Prod.mk.injEq] at h
            obtain ⟨h1, h2⟩ := h
            subst h2
            have hkV := (validate_filament_not_stuck_in_finda_keepH heq3).1
            simpa using (hkV.trans hkU).trans hk1
          · rename_i wV heq3
            simp only [Option.some.injEq, Prod.mk.injEq] at h
            obtain ⟨h1, h2⟩ := h
            subst h2
            have hkV := (validate_filament_not_stuck_in_finda_keepH heq3).1
            simpa using (hkV.trans hkU).trans hk1
      · simp only [Option.some.injEq, Prod.mk.injEq] at h
        obtain ⟨h1, h2⟩ := h
        subst h2
        simpa using hk1
    · simp only [Option.some.injEq, Prod.mk.injEq] at h
      obtain ⟨h1, h2⟩ := h
      subst h2
      exact hk1

theorem home_mmu_only_not_paused {cfg : Config} {w : World} {r : Bool} {w2 : World}
    (hp : w.mmu.is_paused = false) (h : home_mmu_only cfg w = some (r, w2)) :
    r = true ∧ w2.mmu.is_homed = true ∧ w2.mmu.current_tool = none ∧
    w2.mmu.current_filament = none := by
  unfold home_mmu_only at h
  by_cases hns : (!cfg.enable_no_selector_mode) = true
  · simp only [hp, Bool.false_eq_true, if_false, hns, if_true] at h
    split at h
    · exact Option.noConfusion h
    · rename_i bB wB heq
      simp only [Option.some.injEq, Prod.mk.injEq] at h
      obtain ⟨h1, h2⟩ := h
      subst h2
      subst h1
      have hkB := select_tool_keep heq
      simp only [disable_steppers_mmu, emit_mmu, home_idler_mmu] at hkB
      refine ⟨rfl, by simp, ?_, ?_⟩
      · simp only [disable_steppers_mmu]
        cases bB
        · have hfix := select_tool_false heq
          have hTn : wB.mmu.current_tool = none := by
            rw [hfix]
            simp [disable_steppers_mmu]
          rcases unselect_tool_tool cfg wB with hT | hT
          · rw [hT, hTn]
          · rw [hT]
        · have htrue := select_tool_true heq
          simp only [disable_steppers_mmu, emit_mmu, home_idler_mmu] at htrue
          have hrT := unselect_tool_ready cfg wB
            (by simp [hkB.2.1, hp]) (by simp [hkB.1, htrue.1])
          simpa using hrT
      · simp only [disable_steppers_mmu]
        have hkC := unselect_tool_keep cfg wB
        simp only [hkB.2.2] at hkC
        simpa using hkC.2.2
  · simp only [hp, Bool.false_eq_true, if_false, hns] at h
    split at h
    · exact Option.noConfusion h
    · rename_i bB wB heq
      simp only [Option.some.injEq, Prod.mk.injEq] at h
      obtain ⟨h1, h2⟩ := h
      subst h2
      subst h1
      have hkB := select_tool_keep heq
      simp only [disable_steppers_mmu, emit_mmu, home_idler_mmu] at hkB
      refine ⟨rfl, by simp, ?_, ?_⟩
      · simp only [disable_steppers_mmu]
        cases bB
        · have hfix := select_tool_false heq
          have hTn : wB.mmu.current_tool = none := by
            rw [hfix]
            simp [disable_steppers_mmu]
          rcases unselect_tool_tool cfg wB with hT | hT
          · rw [hT, hTn]
          · rw [hT]
        · have htrue := select_tool_true heq
          simp only [disable_steppers_mmu, emit_mmu, home_idler_mmu] at htrue
          have hrT := unselect_tool_ready cfg wB
            (by simp [hkB.2.1, hp]) (by simp [hkB.1, htrue.1])
          simpa using hrT
      · simp only [disable_steppers_mmu]
        have hkC := unselect_tool_keep cfg wB
        simp only [hkB.2.2] at hkC
        simpa using hkC.2.2

theorem home_mmu_sets_homed {cfg : Config} {env : Env} {w : World} {r : Bool} {w2 : World}
    (h : home_mmu cfg env w = some (r, w2)) : w2.mmu.is_homed = true := by
  unfold home_mmu at h
  simp only [] at h
  split at h
  · exact Option.noConfusion h
  · rename_i wE heq
    simp only [Option.some.injEq, Prod.mk.injEq] at h
    obtain ⟨h1, h2⟩ := h
    subst h2
    simpa using eject_before_home_homed heq
  · rename_i wE heq
    have hE : wE.mmu.is_homed = true := by simpa using eject_before_home_homed heq
    by_cases hpE : wE.mmu.is_paused = true
    · rw [home_mmu_only_paused cfg hpE] at h
      simp only [Option.some.injEq, Prod.mk.injEq] at h
      obtain ⟨h1, h2⟩ := h
      subst h2
      exact hE
    · exact (home_mmu_only_not_paused (by simpa using hpE) h).2.1

theorem home_mmu_success_clears {cfg : Config} {env : Env} {w : World} {w2 : World}
    (h : home_mmu cfg env w = some (true, w2)) :
    w2.mmu.current_tool = none ∧ w2.mmu.current_filament = none := by
  unfold home_mmu at h
  simp only [] at h
  split at h
  · exact Option.noConfusion h
  · simp at h
  · rename_i wE heq
    by_cases hpE : wE.mmu.is_paused = true
    · rw [home_mmu_only_paused cfg hpE] at h
      simp at h
    · have hx := home_mmu_only_not_paused (by simpa using hpE) h
      exact ⟨hx.2.2.1, hx.2.2.2⟩

/-- C3 (counterexample): `home_mmu` sets `is_homed = True` before its eject
stage; starting unhomed with filament stuck in a cold extruder, the eject
stage fails and the run returns failure — yet `is_homed` has been set to
true by that failing run, contradicting the claim. -/
theorem claim3_counterexample :
    unhomedW.mmu.is_homed = false ∧
    (home_mmu sampleCfg stuckColdEnv unhomedW).map (fun p => (p.1, p.2.mmu.is_homed))
      = some (false, true) :=
  ⟨rfl, rfl⟩

/-- C3 (amended): `home_mmu` sets `is_homed = true` at the start of the run
(so the eject stage may select tools), hence every completed run — failing
or not — ends with `is_homed = true`; `home_mmu_only` fails only at its
pause guard, leaving the state untouched, and every completed unpaused run
of it returns success with `is_homed = true` and the tool tracking
cleared. -/
theorem claim3_amended (cfg : Config) (env : Env) (w wp wh : World) (r rh : Bool)
    (w2 wh2 : World)
    (h : home_mmu cfg env w = some (r, w2))
    (hp : wp.mmu.is_paused = true)
    (hph : wh.mmu.is_paused = false)
    (hh : home_mmu_only cfg wh = some (rh, wh2)) :
    w2.mmu.is_homed = true ∧
    home_mmu_only cfg wp = some (false, wp) ∧
    (rh = true ∧ wh2.mmu.is_homed = true ∧ wh2.mmu.current_tool = none) :=
  ⟨home_mmu_sets_homed h, home_mmu_only_paused cfg hp,
   (home_mmu_only_not_paused hph hh).1,
   (home_mmu_only_not_paused hph hh).2.1,
   (home_mmu_only_not_paused hph hh).2.2.1⟩

/-- C3 (witness): the amended homing behaviour evaluated on the failing run
of the counterexample, a paused world, and a clean run from the ready
world. -/
theorem claim3_witness :
    w3h.mmu.is_homed = true ∧
    home_mmu_only sampleCfg pausedW = some (false, pausedW) ∧
    (true = true ∧ w3o.mmu.is_homed = true ∧ w3o.mmu.current_tool = none) :=
  claim3_amended sampleCfg stuckColdEnv unhomedW pausedW readyW false true w3h w3o
    rfl rfl rfl rfl

/-- C6 (counterexample): in no-selector mode a successful run of the unload
pipeline returns success after bowden clearance but does NOT clear
`current_filament` (it stays `some 0`), contradicting the claim that the
successful return likewise clears it. -/
theorem claim6_counterexample :
    nsCfg.enable_no_selector_mode = true ∧
    loadedW.mmu.current_filament = some 0 ∧
    (unload_filament_from_extruder nsCfg idleEnv loadedW).map
      (fun p => (p.1, p.2.mmu.current_filament)) = some (true, some 0) :=
  ⟨rfl, rfl, rfl⟩

/-- C6 (amended): with the selector, `current_filament` is cleared by a run
of `unload_filament_from_extruder` exactly when the full pipeline (down to
the FINDA clear) succeeds; in no-selector mode bowden-stage clearance alone
is sufficient for success, but then `current_filament` is left unchanged —
the successful return does not clear it. -/
theorem claim6_amended (cfg : Config) (env : Env) (w : World) (r : Bool) (w2 : World)
    (h : unload_filament_from_extruder cfg env w = some (r, w2)) :
    w2.mmu.current_filament =
      (if cfg.enable_no_selector_mode then w.mmu.current_filament
       else if r then none else w.mmu.current_filament) :=
  (unload_filament_from_extruder_char h).2

/-- C6 (witness): the unload pipeline evaluated on a successful
selector-mode run (filament cleared) and a successful no-selector run
(filament untouched). -/
theorem claim6_witness :
    (w6s.mmu.current_filament =
      (if sampleCfg.enable_no_selector_mode then loadedW.mmu.current_filament
       else if true then none else loadedW.mmu.current_filament)) ∧
    (w6n.mmu.current_filament =
      (if nsCfg.enable_no_selector_mode then loadedW.mmu.current_filament
       else if true then none else loadedW.mmu.current_filament)) :=
  ⟨claim6_amended sampleCfg idleEnv loadedW true w6s rfl,
   claim6_amended nsCfg idleEnv loadedW true w6n rfl⟩

/-- C7 (counterexample): a cut run in which every cut stage succeeds but the
final re-homing fails at its eject stage (extruder sensor stuck, cold
hotend): `cut_filament` still returns success, `is_homed` is true, but
`current_tool` is `some 0`, not `None` — the claim fails in its "regardless
of the outcome of the final re-homing sub-step" part. -/
theorem claim7_counterexample :
    readyW.mmu.is_paused = false ∧
    (cut_filament sampleCfg cutEnv 0 readyW).map
      (fun p => (p.1, p.2.mmu.current_tool, p.2.mmu.is_homed))
      = some (true, some 0, true) :=
  ⟨rfl, rfl⟩

/-- C7 (amended): every successful `cut_filament` run ends with
`is_homed = true`; `current_tool = None` is guaranteed only when the final
re-homing run itself succeeds (a failing re-homing can leave the cut tool
selected); and every guarded sub-step failure aborts the cut with exactly
the failing sub-step's state — shown here for the unload, select, FINDA
load, and FINDA unload stages. -/
theorem claim7_amended (cfg : Config) (env : Env) (tid : Int) (w w2 : World)
    (cfgm : Config) (envm : Env) (wm wm2 : World)
    (cfg3 : Config) (env3 : Env) (tid3 : Int) (w3 y1 : World)
    (cfg4 : Config) (env4 : Env) (tid4 : Int) (w4 x1 x2 : World)
    (cfg5 : Config) (env5 : Env) (tid5 : Int) (w5 z1 z2 z3 : World)
    (cfg6 : Config) (env6 : Env) (tid6 : Int) (w6 u1 u2 u3 u4 : World)
    (h : cut_filament cfg env tid w = some (true, w2))
    (hm : home_mmu cfgm envm wm = some (true, wm2))
    (hp3 : w3.mmu.is_paused = false) (hns3 : cfg3.enable_no_selector_mode = false)
    (hu3 : unload_tool cfg3 env3 w3 = some (false, y1))
    (hp4 : w4.mmu.is_paused = false) (hns4 : cfg4.enable_no_selector_mode = false)
    (hu4 : unload_tool cfg4 env4 w4 = some (true, x1))
    (hs4 : select_tool cfg4 (some tid4) x1 = some (false, x2))
    (hp5 : w5.mmu.is_paused = false) (hns5 : cfg5.enable_no_selector_mode = false)
    (hu5 : unload_tool cfg5 env5 w5 = some (true, z1))
    (hs5 : select_tool cfg5 (some tid5) z1 = some (true, z2))
    (hl5 : load_filament_to_finda cfg5 env5 z2 = (false, z3))
    (hp6 : w6.mmu.is_paused = false) (hns6 : cfg6.enable_no_selector_mode = false)
    (hu6 : unload_tool cfg6 env6 w6 = some (true, u1))
    (hs6 : select_tool cfg6 (some tid6) u1 = some (true, u2))
    (hl6 : load_filament_to_finda cfg6 env6 u2 = (true, u3))
    (hf6 : unload_filament_from_finda cfg6 env6 u3 = some (false, u4)) :
    w2.mmu.is_homed = true ∧
    wm2.mmu.current_tool = none ∧
    cut_filament cfg3 env3 tid3 w3 = some (false, y1) ∧
    cut_filament cfg4 env4 tid4 w4 = some (false, x2) ∧
    cut_filament cfg5 env5 tid5 w5 = some (false, z3) ∧
    cut_filament cfg6 env6 tid6 w6 = some (false, u4) := by
  refine ⟨?_, (home_mmu_success_clears hm).1, ?_, ?_, ?_, ?_⟩
  · unfold cut_filament at h
    simp only [] at h
    repeat' split at h
    all_goals first
      | exact Option.noConfusion h
      | (rename_i bH wH heq
         simp only [Option.some.injEq, Prod.mk.injEq, true_and] at h
         subst h
         exact home_mmu_sets_homed heq)
      | simp_all
  · simp [cut_filament, hp3, hns3, hu3]
  · simp [cut_filament, hp4, hns4, hu4, hs4]
  · simp [cut_filament, hp5, hns5, hu5, hs5, hl5]
  · simp [cut_filament, hp6, hns6, hu6, hs6, hl6, hf6]


/-- C7 (witness): the amended cut behaviour evaluated on the counterexample
run (success, homed, tool left selected), a clean re-homing, and four
concrete aborted cut runs, one per guarded stage. -/
theorem claim7_witness :
    w7x.mmu.is_homed = true ∧
    w7h.mmu.current_tool = none ∧
    cut_filament sampleCfg findaEnv 0 readyW = some (false, { readyW with findaIdx := 1 }) ∧
    cut_filament sampleCfg idleEnv (-1) readyW = some (false, { readyW with findaIdx := 1 }) ∧
    cut_filament zeroCfg idleEnv 0 readyW = some (false, w7l) ∧
    cut_filament sampleCfg cutFailEnv 0 readyW = some (false, w7ff) :=
  claim7_amended sampleCfg cutEnv 0 readyW w7x sampleCfg idleEnv readyW w7h
    sampleCfg findaEnv 0 readyW { readyW with findaIdx := 1 }
    sampleCfg idleEnv (-1) readyW { readyW with findaIdx := 1 } { readyW with findaIdx := 1 }
    zeroCfg idleEnv 0 readyW w7u w7s w7l
    sampleCfg cutFailEnv 0 readyW w7fu w7fs w7fl w7ff
    (by rfl) (by rfl) (by rfl) (by rfl) (by rfl) (by rfl) (by rfl) (by rfl) (by rfl)
    (by rfl) (by rfl) (by rfl) (by rfl) (by rfl) (by rfl) (by rfl) (by rfl) (by rfl)
    (by rfl) (by rfl)

/-- C10 (confirmed): `load_filament_to_finda` never touches `current_tool`,
and it sets `current_filament` to the (unchanged) selected tool exactly when
it returns success; on every failure return `current_filament` is left
unchanged. -/
theorem claim10_load_to_finda_tracking (cfg : Config) (env : Env) (w : World) :
    (load_filament_to_finda cfg env w).2.mmu.current_tool = w.mmu.current_tool ∧
    (load_filament_to_finda cfg env w).2.mmu.current_filament =
      cond (load_filament_to_finda cfg env w).1 w.mmu.current_tool
        w.mmu.current_filament := by
  unfold load_filament_to_finda
  split
  · simp
  · split
    · simp
    · rcases hl : load_filament_to_finda_in_loop cfg env w with ⟨bL, wL⟩
      have hkL := load_filament_to_finda_in_loop_keepH hl
      cases bL
      · simp [hkL.2.1, hkL.2.2]
      · simp only []
        rcases hv : validate_filament_is_in_finda env
          (disable_steppers [Stepper.pulley]
            (wL.emit (StepperCall.do_set_position Stepper.pulley 0))) with ⟨bV, wV⟩
        have hkV := validate_filament_is_in_finda_keepH hv
        simp only [disable_steppers_mmu, emit_mmu] at hkV
        try rw [hv]
        cases bV
        · simp [hkV.2.1.trans hkL.2.1, hkV.2.2.trans hkL.2.2]
        · simp [hkV.2.1.trans hkL.2.1, hkV.2.2.trans hkL.2.2]

theorem eject_before_home_paused {cfg : Config} {env : Env} {w : World}
    (hp : w.mmu.is_paused = true) :
    SatR (eject_before_home cfg env w)
      (fun _ w2 => toolFil w2 = toolFil w ∧ w2.mmu.is_paused = true) := by
  unfold eject_before_home
  simp only [query_extruder, query_finda]
  by_cases hx : env.extruder w.extruderIdx = true
  · simp [hx, SatR, toolFil, hp, eject_from_extruder_paused, unload_filament_from_extruder_paused]
  · by_cases hf : env.finda w.findaIdx = true
    · simp [hx, hf, SatR, toolFil, hp, eject_from_extruder_paused,
        unload_filament_from_extruder_paused]
      by_cases hns : cfg.enable_no_selector_mode = false <;> simp [hns, hp]
    · simp [hx, hf, SatR, toolFil, hp, eject_from_extruder_paused,
        unload_filament_from_extruder_paused]
      by_cases hns : cfg.enable_no_selector_mode = false <;> simp [hns, hp]

/-- C2 (counterexample): the `M702` command in no-selector mode clears
`current_filament` unconditionally — even from a paused state — so an
operation other than unlock/resume does mutate the tool tracking while
paused, contradicting the claim (which names this very case). -/
theorem claim2_counterexample :
    pausedW.mmu.is_paused = true ∧ pausedW.mmu.current_filament = some 2 ∧
    nsCfg.enable_no_selector_mode = true ∧
    (cmd_m702 nsCfg idleEnv pausedW).map (fun p => p.2.mmu.current_filament)
      = some none :=
  ⟨rfl, rfl, rfl, rfl⟩

/-- C2 (amended): from a paused state, no modelled entry-point operation
other than unlock, resume, and `M702` in no-selector mode mutates
`current_tool` or `current_filament` — proved for every configuration; the
`cmd_m702` conjunct is stated for a configuration with
`enable_no_selector_mode = false`, since in no-selector mode `M702` is the
documented exception. -/
theorem claim2_amended (cfg : Config) (env : Env) (t : Option Int) (tid : Int) (w : World)
    (cfgm : Config)
    (hp : w.mmu.is_paused = true)
    (hns : cfgm.enable_no_selector_mode = false) :
    toolFil (home_idler cfg w) = toolFil w ∧
    toolFil (pause env w) = toolFil w ∧
    toolFil (load_filament_to_finda_in_loop cfg env w).2 = toolFil w ∧
    toolFil (unload_filament_to_finda_in_loop cfg env w).2 = toolFil w ∧
    SatR (select_tool cfg t w) (fun _ x => toolFil x = toolFil w) ∧
    toolFil (unselect_tool cfg w).2 = toolFil w ∧
    SatR (retry_load_filament_in_extruder cfg env w) (fun _ x => toolFil x = toolFil w) ∧
    toolFil (retry_unload_filament_in_extruder cfg env w).2 = toolFil w ∧
    SatR (load_filament_in_extruder cfg env w) (fun _ x => toolFil x = toolFil w) ∧
    toolFil (unload_filament_in_extruder cfg env w).2 = toolFil w ∧
    toolFil (unload_filament_in_extruder_with_ramming cfg env w).2 = toolFil w ∧
    toolFil (load_filament_to_finda cfg env w).2 = toolFil w ∧
    toolFil (load_filament_from_finda_to_extruder cfg w).2 = toolFil w ∧
    toolFil (load_filament_to_extruder cfg env w).2 = toolFil w ∧
    SatR (unload_filament_from_finda cfg env w) (fun _ x => toolFil x = toolFil w) ∧
    SatR (unload_filament_from_extruder_to_finda cfg env w) (fun _ x => toolFil x = toolFil w) ∧
    SatR (unload_filament_from_extruder cfg env w) (fun _ x => toolFil x = toolFil w) ∧
    toolFil (eject_from_extruder cfg env w).2 = toolFil w ∧
    SatR (eject_ramming cfg env w) (fun _ x => toolFil x = toolFil w) ∧
    SatR (eject_before_home cfg env w) (fun _ x => toolFil x = toolFil w) ∧
    SatR (home_mmu cfg env w) (fun _ x => toolFil x = toolFil w) ∧
    SatR (home_mmu_only cfg w) (fun _ x => toolFil x = toolFil w) ∧
    SatR (cut_filament cfg env tid w) (fun _ x => toolFil x = toolFil w) ∧
    SatR (load_tool cfg env t w) (fun _ x => toolFil x = toolFil w) ∧
    SatR (unload_tool cfg env w) (fun _ x => toolFil x = toolFil w) ∧
    SatR (cmd_tx cfg env tid w) (fun _ x => toolFil x = toolFil w) ∧
    SatR (cmd_m702 cfgm env w) (fun _ x => toolFil x = toolFil w) := by
  refine ⟨?_, ?_, ?_, ?_, ?_, ?_, ?_, ?_, ?_, ?_, ?_, ?_, ?_, ?_, ?_, ?_, ?_, ?_, ?_,
    ?_, ?_, ?_, ?_, ?_, ?_, ?_, ?_⟩
  · simp [toolFil]
  · simp [toolFil]
  · have hk := load_finda_loop_keep cfg env cfg.finda_load_retry w
    simp [load_filament_to_finda_in_loop, toolFil, hk.2.1, hk.2.2]
  · have hk := unload_finda_loop_keep cfg env cfg.finda_unload_retry w
    simp [unload_filament_to_finda_in_loop, toolFil, hk.2.1, hk.2.2]
  · rw [select_tool_paused cfg t hp]
    simp [SatR]
  · rw [unselect_tool_paused cfg hp]
  · unfold retry_load_filament_in_extruder
    simp only [query_extruder]
    by_cases hx : env.extruder w.extruderIdx = true
    · simp [hx, SatR, toolFil]
    · simp [hx, hp, SatR, toolFil]
  · unfold retry_unload_filament_in_extruder
    simp only [query_extruder]
    by_cases hx : env.extruder w.extruderIdx = true
    · simp [hx, hp, toolFil]
    · simp [hx, toolFil]
  · rw [load_filament_in_extruder_paused cfg env hp]
    simp [SatR]
  · rw [unload_filament_in_extruder_paused cfg env hp]
  · rw [unload_filament_in_extruder_with_ramming_paused cfg env hp]
  · rw [load_filament_to_finda_paused cfg env hp]
  · rw [load_filament_from_finda_to_extruder_paused cfg hp]
  · rw [load_filament_to_extruder_paused cfg env hp]
  · rw [unload_filament_from_finda_paused cfg env hp]
    simp [SatR]
  · rw [unload_filament_from_extruder_to_finda_paused cfg env hp]
    simp [SatR]
  · rw [unload_filament_from_extruder_paused cfg env hp]
    simp [SatR]
  · rw [eject_from_extruder_paused cfg env hp]
  · rw [eject_ramming_paused cfg env hp]
    simp [SatR]
  · have hE := @eject_before_home_paused cfg env w hp
    rcases hcall : eject_before_home cfg env w with _ | ⟨b, w2⟩
    · simp [SatR]
    · rw [hcall] at hE
      simp only [SatR] at hE ⊢
      exact hE.1
  · unfold home_mmu
    simp only []
    rcases hE : eject_before_home cfg env
      { w with mmu := { w.mmu with is_homed := true } } with _ | ⟨bE, wE⟩
    · simp [SatR]
    · have hEP := @eject_before_home_paused cfg env
        { w with mmu := { w.mmu with is_homed := true } }
        (show ({ w with mmu := { w.mmu with is_homed := true } } : World).mmu.is_paused
          = true from hp)
      rw [hE] at hEP
      simp only [SatR] at hEP
      cases bE
      · simpa [SatR, toolFil] using hEP.1
      · simp only []
        rw [home_mmu_only_paused cfg hEP.2]
        simpa [SatR, toolFil] using hEP.1
  · rw [home_mmu_only_paused cfg hp]
    simp [SatR]
  · rw [cut_filament_paused cfg env tid hp]
    simp [SatR]
  · rw [load_tool_paused cfg env t hp]
    simp [SatR]
  · rw [unload_tool_paused cfg env hp]
    simp [SatR]
  · unfold cmd_tx
    by_cases he : w.mmu.current_filament = some tid
    · simp [he, SatR]
    · simp [he, SatR, toolFil, unload_tool_paused cfg env hp]
  · unfold cmd_m702
    rw [unload_tool_paused cfgm env hp]
    simp only [hns, query_finda]
    by_cases hf : env.finda w.findaIdx = true
    · simp [hf, SatR, toolFil]
    · simp [hf, SatR, toolFil, hp, unselect_tool_paused]

/-- C2 (witness): the paused-state tool-tracking preservation evaluated at
the sample configuration and a concrete paused world. -/
theorem claim2_witness :
    toolFil (home_idler sampleCfg pausedW) = toolFil pausedW ∧
    toolFil (pause idleEnv pausedW) = toolFil pausedW ∧
    toolFil (load_filament_to_finda_in_loop sampleCfg idleEnv pausedW).2 = toolFil pausedW ∧
    toolFil (unload_filament_to_finda_in_loop sampleCfg idleEnv pausedW).2 = toolFil pausedW ∧
    SatR (select_tool sampleCfg (some 1) pausedW) (fun _ x => toolFil x = toolFil pausedW) ∧
    toolFil (unselect_tool sampleCfg pausedW).2 = toolFil pausedW ∧
    SatR (retry_load_filament_in_extruder sampleCfg idleEnv pausedW) (fun _ x => toolFil x = toolFil pausedW) ∧
    toolFil (retry_unload_filament_in_extruder sampleCfg idleEnv pausedW).2 = toolFil pausedW ∧
    SatR (load_filament_in_extruder sampleCfg idleEnv pausedW) (fun _ x => toolFil x = toolFil pausedW) ∧
    toolFil (unload_filament_in_extruder sampleCfg idleEnv pausedW).2 = toolFil pausedW ∧
    toolFil (unload_filament_in_extruder_with_ramming sampleCfg idleEnv pausedW).2 = toolFil pausedW ∧
    toolFil (load_filament_to_finda sampleCfg idleEnv pausedW).2 = toolFil pausedW ∧
    toolFil (load_filament_from_finda_to_extruder sampleCfg pausedW).2 = toolFil pausedW ∧
    toolFil (load_filament_to_extruder sampleCfg idleEnv pausedW).2 = toolFil pausedW ∧
    SatR (unload_filament_from_finda sampleCfg idleEnv pausedW) (fun _ x => toolFil x = toolFil pausedW) ∧
    SatR (unload_filament_from_extruder_to_finda sampleCfg idleEnv pausedW) (fun _ x => toolFil x = toolFil pausedW) ∧
    SatR (unload_filament_from_extruder sampleCfg idleEnv pausedW) (fun _ x => toolFil x = toolFil pausedW) ∧
    toolFil (eject_from_extruder sampleCfg idleEnv pausedW).2 = toolFil pausedW ∧
    SatR (eject_ramming sampleCfg idleEnv pausedW) (fun _ x => toolFil x = toolFil pausedW) ∧
    SatR (eject_before_home sampleCfg idleEnv pausedW) (fun _ x => toolFil x = toolFil pausedW) ∧
    SatR (home_mmu sampleCfg idleEnv pausedW) (fun _ x => toolFil x = toolFil pausedW) ∧
    SatR (home_mmu_only sampleCfg pausedW) (fun _ x => toolFil x = toolFil pausedW) ∧
    SatR (cut_filament sampleCfg idleEnv 1 pausedW) (fun _ x => toolFil x = toolFil pausedW) ∧
    SatR (load_tool sampleCfg idleEnv (some 1) pausedW) (fun _ x => toolFil x = toolFil pausedW) ∧
    SatR (unload_tool sampleCfg idleEnv pausedW) (fun _ x => toolFil x = toolFil pausedW) ∧
    SatR (cmd_tx sampleCfg idleEnv 1 pausedW) (fun _ x => toolFil x = toolFil pausedW) ∧
    SatR (cmd_m702 sampleCfg idleEnv pausedW) (fun _ x => toolFil x = toolFil pausedW) :=
  claim2_amended sampleCfg idleEnv (some 1) 1 pausedW sampleCfg rfl rfl
